import Mathlib

/-!
The faabric transport layer: endpoint send/recv, worker dispatch loop, server start/stop.

Shallow embedding of

* `src/transport/MessageEndpoint.cpp` (`MessageEndpoint::send`, `MessageEndpoint::recv`),
* `src/transport/MessageEndpointServer.cpp` (`MessageEndpointServerHandler::start` with
  its receiver and worker threads, `MessageEndpointServerHandler::join`,
  `MessageEndpointServer::start`, `MessageEndpointServer::stop`,
  `MessageEndpointServer::setRequestLatch`, `MessageEndpointServer::awaitRequestLatch`).

External collaborators (the ZeroMQ socket, the protobuf reply, the abstract server
hooks) are parameters of the definitions; everything the repository code itself does
is a computable definition.
-/

namespace faabric.transport

/-! ## Errors -/

/-- The exception `zmq::error_t`, identified by its error number `num()`. -/
structure error_t where
  num : Int
deriving DecidableEq, Repr

/-- The error number of a transport that is terminating (`ETERM` in `zmq.h`,
`ZMQ_HAUSNUMERO + 53`). -/
def ZMQ_ETERM : Int := 156384712 + 53

/-- What to say about a `std::runtime_error`: the texts thrown by the two source files. -/
inductive What
  | errorSendingMessage       -- "Error sending message"
  | errorReceivingMessage     -- "Error receiving message"
  | unsuccessfulMessage       -- "Unsuccessful message to server"
  | errorSerialisingMessage   -- "Error serialising message"
  | other (tag : Nat)         -- any other text (an abstract server hook may throw it)
deriving DecidableEq, Repr

/-- The exceptions that leave the modelled functions. -/
inductive Error
  | runtime_error (what : What)
  | zmq (e : error_t)
deriving DecidableEq, Repr

/-! ## Message -/

/-- A `Message` value, recorded by the constructor `MessageEndpoint::recv` built it with:
`Message()` (the empty message), `Message(size)` (a pre-allocated buffer of `size` bytes,
here with the bytes the transport left in it) and `Message(msg)` (a copy of a received
`zmq::message_t`). -/
inductive Message
  | empty
  | sized (size : Nat) (data : List Nat)
  | copied (data : List Nat)
deriving DecidableEq, Repr

/-- Modelled from the spec: the header declaring `MessageResponseCode` is not among the
sources. The spec names the tags `SUCCESS`, `TIMEOUT` and `TERM`; every other value the
enum's underlying integer can hold is `OTHER`. -/
inductive MessageResponseCode
  | SUCCESS
  | TERM
  | TIMEOUT
  | OTHER (raw : Nat)
deriving DecidableEq, Repr

/-! ## The socket, as seen by `MessageEndpoint` -/

/-- The flags of `zmq::send_flags` used by `MessageEndpoint::send`. -/
inductive send_flags
  | none
  | sndmore
deriving DecidableEq, Repr

/-- The argument `zmq::buffer(serialisedMsg, msgSize)`. -/
structure const_buffer where
  data : List Nat
  size : Nat
deriving DecidableEq, Repr

/-- The value `zmq::recv_buffer_size`. -/
structure recv_buffer_size where
  size : Nat
  untruncated_size : Nat
deriving DecidableEq, Repr

/-- The behaviour of `zmq::socket_t` on one call. Each call either throws a `zmq::error_t`
or returns an optional result; the receive calls also leave bytes in the buffer they
were given. -/
structure socket_t where
  /-- The call `send(buffer, flags)`: the byte count sent, if any. -/
  send : const_buffer → send_flags → Except error_t (Option Nat)
  /-- The call `recv(zmq::buffer(data, capacity))`: the bytes in the buffer after the
  call and the optional result. -/
  recv_buffer : Nat → Except error_t (List Nat × Option recv_buffer_size)
  /-- The call `recv(zmq::message_t&)`: the content of the message after the call and the
  optional result. -/
  recv_msg : Except error_t (List Nat × Option Nat)

/-! ## `MessageEndpoint::send` and `MessageEndpoint::recv` -/

/-- The function `MessageEndpoint::send(serialisedMsg, msgSize, more)`, called on the
owning thread with an open socket (the two `assert`s). The `std::runtime_error` thrown
inside the `try` is not a `zmq::error_t` and leaves the function uncaught. -/
def MessageEndpoint.send (socket : socket_t) (serialisedMsg : List Nat) (msgSize : Nat)
    (more : Bool) : Except Error Unit :=
  if more then
    match socket.send ⟨serialisedMsg, msgSize⟩ send_flags.sndmore with
    | .ok res =>
      if res ≠ some msgSize then
        .error (Error.runtime_error What.errorSendingMessage)
      else
        .ok ()
    | .error e => .error (Error.zmq e)
  else
    match socket.send ⟨serialisedMsg, msgSize⟩ send_flags.none with
    | .ok res =>
      if res ≠ some msgSize then
        .error (Error.runtime_error What.errorSendingMessage)
      else
        .ok ()
    | .error e => .error (Error.zmq e)

/-- The function `MessageEndpoint::recv(size)`, called on the owning thread with an open
socket and `size >= 0` (the three `assert`s). The optional result `res` of the transport
is empty when nothing was received. -/
def MessageEndpoint.recv (socket : socket_t) (size : Int) : Except Error Message :=
  if size > 0 then
    -- Message msg(size); recv(zmq::buffer(msg.udata(), msg.size()))
    match socket.recv_buffer size.toNat with
    | .ok (data, res) =>
      if res.isSome && (res.any fun r => r.size != r.untruncated_size) then
        .error (Error.runtime_error What.errorReceivingMessage)
      else
        .ok (Message.sized size.toNat data)
    | .error e =>
      if e.num = ZMQ_ETERM then
        .ok Message.empty
      else
        .error (Error.zmq e)
  else
    -- zmq::message_t msg; recv(msg)
    match socket.recv_msg with
    | .ok (data, res) =>
      if !res.isSome then
        .error (Error.runtime_error What.errorReceivingMessage)
      else
        .ok (Message.copied data)
    | .error e =>
      if e.num = ZMQ_ETERM then
        .ok Message.empty
      else
        .error (Error.zmq e)

/-- The flag `MessageEndpoint::send` hands to the transport for a given `more`. -/
def sendFlagsOf (more : Bool) : send_flags :=
  if more then send_flags.sndmore else send_flags.none

/-! ## The worker thread of `MessageEndpointServerHandler::start` -/

/-- Modelled from the spec: `common.h`, which defines the header macros, is not among the
sources. The spec reserves two headers: `NO_HEADER` (sync replies carry no header) and
`SHUTDOWN_HEADER` (the shutdown signal). -/
inductive Header
  | NO_HEADER
  | SHUTDOWN_HEADER
deriving DecidableEq, Repr

/-- A latch object made by `faabric::util::Latch::create(count)`; `id` tells apart the
objects made by different calls. -/
structure Latch where
  id : Nat
  count : Nat
deriving DecidableEq, Repr

/-- The reply `google::protobuf::Message` a sync hook returns, as far as the worker uses
it: `ByteSizeLong()` and `SerializeToArray(buffer, size)`, which fails (`none`) or leaves
the serialisation in the `size`-byte buffer. -/
structure ProtoMessage where
  ByteSizeLong : Nat
  SerializeToArray : Nat → Option (List Nat)

/-- The abstract hooks of `MessageEndpointServer` the worker calls; a hook may throw. -/
structure ServerHooks where
  doAsyncRecv : Message → Except Error Unit
  doSyncRecv : Message → Except Error ProtoMessage

/-- One pass of the worker through `endpoint->recv()`: the message it gets, and the value
the atomic load of `server->requestLatch` yields after that message was dispatched. -/
structure Received where
  body : Message
  requestLatch : Option Latch
deriving DecidableEq, Repr

/-- What a worker thread does, in program order. -/
inductive WorkerEvent
  | endpointCreated (async : Bool)
  | startupLatchWait
  | recv (body : Message)
  | doAsyncRecv (body : Message)
  | doSyncRecv (body : Message)
  | sendResponse (header : Header) (buffer : List Nat) (size : Nat)
  | requestLatchWait (latch : Latch)
  | endpointReleased
  | onWorkerStop
  | shutdownLatchWait (latch : Latch)
deriving DecidableEq, Repr

/-- How the dispatch loop `while (true)` is left, for a finite sequence of received
messages: by `break` on `TERM`, by an exception, or not at all (the worker is back in
`endpoint->recv()` when the sequence ends). -/
inductive LoopExit
  | term
  | raised (e : Error)
  | recvPending
deriving DecidableEq, Repr

/-- Put events in front of the trace of a computation. -/
def prependEvents {ε : Type} (es : List WorkerEvent) (p : List WorkerEvent × ε) :
    List WorkerEvent × ε :=
  (es ++ p.1, p.2)

/-- The wait on the request latch "if necessary" that ends a loop pass. -/
def requestLatchEvents : Option Latch → List WorkerEvent
  | some l => [WorkerEvent.requestLatchWait l]
  | none => []

/-- The dispatch loop `while (true) { ... }` of a worker thread, run on the messages
`endpoint->recv()` returns one after the other, on an endpoint whose `recv` and
`sendResponse` return (`workerLoopOn` is the loop on an endpoint where they may throw).
`getResponseCode` is the accessor of `Message` (declared in a header that is not among
the sources). -/
def workerLoop (getResponseCode : Message → MessageResponseCode) (server : ServerHooks)
    (async : Bool) : List Received → List WorkerEvent × LoopExit
  | [] => ([], LoopExit.recvPending)
  | r :: rest =>
    -- Message body = endpoint->recv();
    if getResponseCode r.body = MessageResponseCode.TERM then
      ([WorkerEvent.recv r.body], LoopExit.term)
    else if getResponseCode r.body = MessageResponseCode.TIMEOUT then
      prependEvents [WorkerEvent.recv r.body] (workerLoop getResponseCode server async rest)
    else if getResponseCode r.body ≠ MessageResponseCode.SUCCESS then
      ([WorkerEvent.recv r.body],
        LoopExit.raised (Error.runtime_error What.unsuccessfulMessage))
    else if async then
      match server.doAsyncRecv r.body with
      | .error e => ([WorkerEvent.recv r.body, WorkerEvent.doAsyncRecv r.body], LoopExit.raised e)
      | .ok _ =>
        prependEvents
          ([WorkerEvent.recv r.body, WorkerEvent.doAsyncRecv r.body]
            ++ requestLatchEvents r.requestLatch)
          (workerLoop getResponseCode server async rest)
    else
      match server.doSyncRecv r.body with
      | .error e => ([WorkerEvent.recv r.body, WorkerEvent.doSyncRecv r.body], LoopExit.raised e)
      | .ok resp =>
        -- size_t respSize = resp->ByteSizeLong(); uint8_t buffer[respSize];
        match resp.SerializeToArray resp.ByteSizeLong with
        | none =>
          ([WorkerEvent.recv r.body, WorkerEvent.doSyncRecv r.body],
            LoopExit.raised (Error.runtime_error What.errorSerialisingMessage))
        | some buffer =>
          prependEvents
            ([WorkerEvent.recv r.body, WorkerEvent.doSyncRecv r.body,
                WorkerEvent.sendResponse Header.NO_HEADER buffer resp.ByteSizeLong]
              ++ requestLatchEvents r.requestLatch)
            (workerLoop getResponseCode server async rest)

/-- The messages the server hook of the mode was invoked with, in order: the arguments
of the `doAsyncRecv` calls in async mode, of the `doSyncRecv` calls in sync mode. -/
def hookCalls (async : Bool) : List WorkerEvent → List Message
  | [] => []
  | WorkerEvent.doAsyncRecv m :: es => if async then m :: hookCalls async es else hookCalls async es
  | WorkerEvent.doSyncRecv m :: es => if async then hookCalls async es else m :: hookCalls async es
  | _ :: es => hookCalls async es

/-- The responses sent, in order, as (header, buffer, size). -/
def responsesSent : List WorkerEvent → List (Header × List Nat × Nat)
  | [] => []
  | WorkerEvent.sendResponse h b n :: es => (h, b, n) :: responsesSent es
  | _ :: es => responsesSent es

/-- The statuses the dispatch loop handles without raising. -/
def handledStatus (c : MessageResponseCode) : Bool :=
  c = MessageResponseCode.SUCCESS || c = MessageResponseCode.TIMEOUT
    || c = MessageResponseCode.TERM

/-- Spec side of the dispatch claim: the messages the hook is to be called with are the
`SUCCESS` messages that precede the first `TERM`, in arrival order. -/
def expectedHookCalls (getResponseCode : Message → MessageResponseCode)
    (inputs : List Received) : List Message :=
  ((inputs.map Received.body).takeWhile
      (fun m => getResponseCode m != MessageResponseCode.TERM)).filter
    (fun m => getResponseCode m == MessageResponseCode.SUCCESS)


/-- The hook of the mode, and in sync mode the serialisation of its reply, succeed on
every message of `inputs`. -/
def HooksSucceed (server : ServerHooks) (async : Bool) (inputs : List Received) : Prop :=
  ∀ r ∈ inputs,
    if async then
      ∃ u, server.doAsyncRecv r.body = .ok u
    else
      ∃ resp buffer, server.doSyncRecv r.body = .ok resp
        ∧ resp.SerializeToArray resp.ByteSizeLong = some buffer

/-- How the loop is left when nothing raises: on the first `TERM`, or not at all. -/
def expectedExit (getResponseCode : Message → MessageResponseCode)
    (inputs : List Received) : LoopExit :=
  if inputs.any (fun r => getResponseCode r.body == MessageResponseCode.TERM) then
    LoopExit.term
  else
    LoopExit.recvPending

/-! ## The dispatch loop on an endpoint that can fail -/

/-- The receive endpoint of a worker, as far as the dispatch loop answers through it:
a call of `sendResponse(header, buffer, size)` returns or throws. -/
structure WorkerEndpoint where
  sendResponse : Header → List Nat → Nat → Except Error Unit

/-- Modelled from the spec: the class of the worker endpoint, with `sendResponse`, is not
among the sources. The worker sends the encoded reply "back over the same internal
endpoint", and a sync reply carries no header: the bytes of the reply go out as one
message through `MessageEndpoint::send`, which throws when the transport throws or sends
another number of bytes. The loop passes no header but `NO_HEADER`. -/
def endpointOn (socket : socket_t) : WorkerEndpoint :=
  { sendResponse := fun _ buffer size => MessageEndpoint.send socket buffer size false }

/-- The dispatch loop `while (true) { ... }` of a worker thread on its endpoint. The list
holds the outcome of each call of `endpoint->recv()`, in order: the message received, or
the exception thrown. Nothing in the loop catches an exception: one thrown by
`endpoint->recv()`, by a hook or by `sendResponse` leaves the loop, as do the two `throw`
statements of the loop itself. -/
def workerLoopOn (getResponseCode : Message → MessageResponseCode) (server : ServerHooks)
    (endpoint : WorkerEndpoint) (async : Bool) :
    List (Except Error Received) → List WorkerEvent × LoopExit
  | [] => ([], LoopExit.recvPending)
  -- Message body = endpoint->recv();
  | .error e :: _ => ([], LoopExit.raised e)
  | .ok r :: rest =>
    if getResponseCode r.body = MessageResponseCode.TERM then
      ([WorkerEvent.recv r.body], LoopExit.term)
    else if getResponseCode r.body = MessageResponseCode.TIMEOUT then
      prependEvents [WorkerEvent.recv r.body]
        (workerLoopOn getResponseCode server endpoint async rest)
    else if getResponseCode r.body ≠ MessageResponseCode.SUCCESS then
      ([WorkerEvent.recv r.body],
        LoopExit.raised (Error.runtime_error What.unsuccessfulMessage))
    else if async then
      match server.doAsyncRecv r.body with
      | .error e => ([WorkerEvent.recv r.body, WorkerEvent.doAsyncRecv r.body], LoopExit.raised e)
      | .ok _ =>
        prependEvents
          ([WorkerEvent.recv r.body, WorkerEvent.doAsyncRecv r.body]
            ++ requestLatchEvents r.requestLatch)
          (workerLoopOn getResponseCode server endpoint async rest)
    else
      match server.doSyncRecv r.body with
      | .error e => ([WorkerEvent.recv r.body, WorkerEvent.doSyncRecv r.body], LoopExit.raised e)
      | .ok resp =>
        -- size_t respSize = resp->ByteSizeLong(); uint8_t buffer[respSize];
        match resp.SerializeToArray resp.ByteSizeLong with
        | none =>
          ([WorkerEvent.recv r.body, WorkerEvent.doSyncRecv r.body],
            LoopExit.raised (Error.runtime_error What.errorSerialisingMessage))
        | some buffer =>
          -- endpoint->sendResponse(NO_HEADER, buffer, respSize);
          match endpoint.sendResponse Header.NO_HEADER buffer resp.ByteSizeLong with
          | .error e =>
            ([WorkerEvent.recv r.body, WorkerEvent.doSyncRecv r.body,
                WorkerEvent.sendResponse Header.NO_HEADER buffer resp.ByteSizeLong],
              LoopExit.raised e)
          | .ok _ =>
            prependEvents
              ([WorkerEvent.recv r.body, WorkerEvent.doSyncRecv r.body,
                  WorkerEvent.sendResponse Header.NO_HEADER buffer resp.ByteSizeLong]
                ++ requestLatchEvents r.requestLatch)
              (workerLoopOn getResponseCode server endpoint async rest)

/-- In sync mode, the send of the reply to each message of `inputs` returns. -/
def ReplySendsSucceed (endpoint : WorkerEndpoint) (server : ServerHooks) (async : Bool)
    (inputs : List Received) : Prop :=
  async = false →
    ∀ r ∈ inputs, ∀ resp buffer, server.doSyncRecv r.body = .ok resp →
      resp.SerializeToArray resp.ByteSizeLong = some buffer →
      endpoint.sendResponse Header.NO_HEADER buffer resp.ByteSizeLong = .ok ()

/-! ## Example data -/

/-- A status accessor for the examples: the empty message is `TERM`, a pre-allocated
message is `TIMEOUT`, a copied message starting with byte 7 has an unknown status, every
other message is `SUCCESS`. -/
def exampleResponseCode : Message → MessageResponseCode
  | Message.empty => MessageResponseCode.TERM
  | Message.sized _ _ => MessageResponseCode.TIMEOUT
  | Message.copied (7 :: _) => MessageResponseCode.OTHER 9
  | Message.copied _ => MessageResponseCode.SUCCESS

/-- A reply that serialises to the given bytes. -/
def exampleReply (bytes : List Nat) : ProtoMessage :=
  { ByteSizeLong := bytes.length,
    SerializeToArray := fun n => if n < bytes.length then none else some bytes }

/-- The payload of a message. -/
def Message.payload : Message → List Nat
  | Message.empty => []
  | Message.sized _ d => d
  | Message.copied d => d

/-- Hooks that succeed: the sync hook answers `[80, 79, 78, 71]` ("PONG") to the payload
`[80, 73, 78, 71]` ("PING") and echoes every other payload. -/
def exampleHooks : ServerHooks :=
  { doAsyncRecv := fun _ => .ok (),
    doSyncRecv := fun m =>
      .ok (exampleReply (if m.payload = [80, 73, 78, 71] then [80, 79, 78, 71] else m.payload)) }

/-- Two requests, a timeout between them, then the shutdown message and a late request. -/
def exampleInputs : List Received :=
  [⟨Message.copied [80, 73, 78, 71], none⟩, ⟨Message.sized 2 [0, 0], none⟩,
   ⟨Message.copied [2], some ⟨1, 2⟩⟩, ⟨Message.empty, none⟩, ⟨Message.copied [3], none⟩]

/-! ## `MessageEndpointServer`: start and stop, as run by the calling thread -/

/-- A `std::thread` / `std::jthread` handle: default-constructed, running (joinable), or
joined. -/
inductive ThreadHandle
  | empty
  | running
  | joined
deriving DecidableEq, Repr

/-- The members of `MessageEndpointServerHandler`. The four fan-in / fan-out pointers are
recorded as null (`false`) or set (`true`). -/
structure MessageEndpointServerHandler where
  async : Bool
  inprocLabel : String
  nThreads : Int
  receiverThread : ThreadHandle
  workerThreads : List ThreadHandle
  asyncFanIn : Bool
  asyncFanOut : Bool
  syncFanIn : Bool
  syncFanOut : Bool
deriving DecidableEq, Repr

/-- The members of `MessageEndpointServer`. `latchesCreated` counts the calls of
`faabric::util::Latch::create` so far: it numbers the latch objects. -/
structure MessageEndpointServer where
  asyncPort : Int
  syncPort : Int
  inprocLabel : String
  nThreads : Int
  asyncHandler : MessageEndpointServerHandler
  syncHandler : MessageEndpointServerHandler
  started : Bool
  shutdownLatch : Option Latch
  requestLatch : Option Latch
  shutdownPayload : List Nat
  latchesCreated : Nat
deriving DecidableEq, Repr

/-- What the thread that calls `start` / `stop` does, in program order. -/
inductive ServerEvent
  | storeStarted (value : Bool)
  | handlerStart (async : Bool) (timeoutMs : Int)
  | sleepMs (ms : Nat)
  | latchCreate (latch : Latch)
  | storeShutdownLatch (latch : Option Latch)
  | storeRequestLatch (latch : Option Latch)
  | asyncShutdownSend (port : Int) (header : Header) (payload : List Nat) (size : Nat)
  | syncShutdownSendAwaitResponse (port : Int) (header : Header) (payload : List Nat)
      (size : Nat)
  | latchWait (latch : Latch)
  | handlerJoin (async : Bool)
  | fanInStop (async : Bool)
  | workerJoin (async : Bool) (index : Nat)
  | receiverJoin (async : Bool)
deriving DecidableEq, Repr

/-- The state of a handler when `MessageEndpointServerHandler::start` returns: the
receiver thread and `nThreads` worker threads are running, and the receiver thread has
made the fan-in and the fan-out of the mode (it does so before it waits on the startup
latch, see `handlerStep`). -/
def MessageEndpointServerHandler.start (h : MessageEndpointServerHandler) (timeoutMs : Int) :
    MessageEndpointServerHandler × List ServerEvent :=
  ({ h with
      receiverThread := ThreadHandle.running,
      workerThreads := h.workerThreads ++ List.replicate h.nThreads.toNat ThreadHandle.running,
      asyncFanIn := if h.async then true else h.asyncFanIn,
      asyncFanOut := if h.async then true else h.asyncFanOut,
      syncFanIn := if h.async then h.syncFanIn else true,
      syncFanOut := if h.async then h.syncFanOut else true },
    [ServerEvent.handlerStart h.async timeoutMs])

/-- The loop `for (auto& t : workerThreads) if (t.joinable()) t.join();`, from worker
`index` on. -/
def joinWorkers (async : Bool) : Nat → List ThreadHandle → List ThreadHandle × List ServerEvent
  | _, [] => ([], [])
  | index, t :: ts =>
    let rest := joinWorkers async (index + 1) ts
    if t = ThreadHandle.running then
      (ThreadHandle.joined :: rest.1, ServerEvent.workerJoin async index :: rest.2)
    else
      (t :: rest.1, rest.2)

/-- The function `MessageEndpointServerHandler::join`. -/
def MessageEndpointServerHandler.join (h : MessageEndpointServerHandler) :
    MessageEndpointServerHandler × List ServerEvent :=
  let stopSync := if h.syncFanIn then [ServerEvent.fanInStop false] else []
  let stopAsync := if h.asyncFanIn then [ServerEvent.fanInStop true] else []
  let workers := joinWorkers h.async 0 h.workerThreads
  let receiver :=
    if h.receiverThread = ThreadHandle.running then
      (ThreadHandle.joined, [ServerEvent.receiverJoin h.async])
    else
      (h.receiverThread, [])
  ({ h with workerThreads := workers.1, receiverThread := receiver.1 },
    [ServerEvent.handlerJoin h.async] ++ stopSync ++ stopAsync ++ workers.2 ++ receiver.2)

/-- The function `MessageEndpointServer::start`. -/
def MessageEndpointServer.start (s : MessageEndpointServer) (timeoutMs : Int) :
    MessageEndpointServer × List ServerEvent :=
  let a := s.asyncHandler.start timeoutMs
  let y := s.syncHandler.start timeoutMs
  ({ s with started := true, asyncHandler := a.1, syncHandler := y.1 },
    [ServerEvent.storeStarted true] ++ a.2 ++ y.2 ++ [ServerEvent.sleepMs 500])

/-- The body of the first loop of `MessageEndpointServer::stop`: one async shutdown
round. The result is `none` if the latch loaded for the wait is null. -/
def asyncShutdownRound (s : MessageEndpointServer) :
    Option (MessageEndpointServer × List ServerEvent) :=
  -- atomic_store(&shutdownLatch, Latch::create(2))
  let latch : Latch := ⟨s.latchesCreated, 2⟩
  let s1 := { s with latchesCreated := s.latchesCreated + 1, shutdownLatch := some latch }
  -- asyncShutdownSender.send(SHUTDOWN_HEADER, shutdownPayload.data(), shutdownPayload.size())
  -- (the sender was constructed as asyncShutdownSender(LOCALHOST, asyncPort))
  let sent := ServerEvent.asyncShutdownSend s1.asyncPort Header.SHUTDOWN_HEADER
    s1.shutdownPayload s1.shutdownPayload.length
  -- atomic_load(&shutdownLatch)->wait(); atomic_store(&shutdownLatch, nullptr)
  match s1.shutdownLatch with
  | none => none
  | some loaded =>
    some ({ s1 with shutdownLatch := none },
      [ServerEvent.latchCreate latch, ServerEvent.storeShutdownLatch (some latch), sent,
        ServerEvent.latchWait loaded, ServerEvent.storeShutdownLatch none])

/-- The body of the second loop of `MessageEndpointServer::stop`: one sync shutdown
round. -/
def syncShutdownRound (s : MessageEndpointServer) :
    Option (MessageEndpointServer × List ServerEvent) :=
  let latch : Latch := ⟨s.latchesCreated, 2⟩
  let s1 := { s with latchesCreated := s.latchesCreated + 1, shutdownLatch := some latch }
  -- syncShutdownSender.sendAwaitResponse(SHUTDOWN_HEADER, ...)
  -- (the sender was constructed as syncShutdownSender(LOCALHOST, syncPort))
  let sent := ServerEvent.syncShutdownSendAwaitResponse s1.syncPort Header.SHUTDOWN_HEADER
    s1.shutdownPayload s1.shutdownPayload.length
  match s1.shutdownLatch with
  | none => none
  | some loaded =>
    some ({ s1 with shutdownLatch := none },
      [ServerEvent.latchCreate latch, ServerEvent.storeShutdownLatch (some latch), sent,
        ServerEvent.latchWait loaded, ServerEvent.storeShutdownLatch none])

/-- A loop `for (int i = 0; i < nThreads; i++) body`, given the number of passes left. -/
def repeatRound (body : MessageEndpointServer → Option (MessageEndpointServer × List ServerEvent)) :
    Nat → MessageEndpointServer → Option (MessageEndpointServer × List ServerEvent)
  | 0, s => some (s, [])
  | k + 1, s =>
    match body s with
    | none => none
    | some (s1, es1) =>
      match repeatRound body k s1 with
      | none => none
      | some (s2, es2) => some (s2, es1 ++ es2)

/-- The function `MessageEndpointServer::stop`. -/
def MessageEndpointServer.stop (s : MessageEndpointServer) :
    Option (MessageEndpointServer × List ServerEvent) :=
  if !s.started then
    some (s, [])
  else
    match repeatRound asyncShutdownRound s.nThreads.toNat s with
    | none => none
    | some (s1, es1) =>
      match repeatRound syncShutdownRound s1.nThreads.toNat s1 with
      | none => none
      | some (s2, es2) =>
        let a := s2.asyncHandler.join
        let y := s2.syncHandler.join
        some ({ s2 with asyncHandler := a.1, syncHandler := y.1, started := false },
          es1 ++ es2 ++ a.2 ++ y.2 ++ [ServerEvent.storeStarted false])

/-- Two calls of `stop` in a row. -/
def stopTwice (s : MessageEndpointServer) : Option (MessageEndpointServer × List ServerEvent) :=
  match s.stop with
  | none => none
  | some (s1, es1) =>
    match s1.stop with
    | none => none
    | some (s2, es2) => some (s2, es1 ++ es2)

/-- Spec side of a shutdown round: install a fresh latch of 2 parties, send one
SHUTDOWN_HEADER message to the port of the mode (async with `send`, sync with
`sendAwaitResponse`), wait on the installed latch, set the latch to null. -/
def expectedRound (async : Bool) (port : Int) (payload : List Nat) (latchId : Nat) :
    List ServerEvent :=
  [ServerEvent.latchCreate ⟨latchId, 2⟩,
   ServerEvent.storeShutdownLatch (some ⟨latchId, 2⟩),
   if async then
     ServerEvent.asyncShutdownSend port Header.SHUTDOWN_HEADER payload payload.length
   else
     ServerEvent.syncShutdownSendAwaitResponse port Header.SHUTDOWN_HEADER payload
       payload.length,
   ServerEvent.latchWait ⟨latchId, 2⟩,
   ServerEvent.storeShutdownLatch none]

/-- Spec side: `count` shutdown rounds in a row, the first with latch `latchId`. -/
def expectedRounds (async : Bool) (port : Int) (payload : List Nat) :
    Nat → Nat → List ServerEvent
  | _, 0 => []
  | latchId, count + 1 =>
    expectedRound async port payload latchId
      ++ expectedRounds async port payload (latchId + 1) count

/-- The shutdown messages among the events, by mode (`true` for async). -/
def shutdownMessages : List ServerEvent → List Bool
  | [] => []
  | ServerEvent.asyncShutdownSend _ _ _ _ :: es => true :: shutdownMessages es
  | ServerEvent.syncShutdownSendAwaitResponse _ _ _ _ :: es => false :: shutdownMessages es
  | _ :: es => shutdownMessages es

/-- A handler that was never started. -/
def exampleHandler (async : Bool) (nThreads : Int) : MessageEndpointServerHandler :=
  { async := async, inprocLabel := if async then "test-async" else "test",
    nThreads := nThreads, receiverThread := ThreadHandle.empty, workerThreads := [],
    asyncFanIn := false, asyncFanOut := false, syncFanIn := false, syncFanOut := false }

/-- A server with two worker threads per mode, as constructed. -/
def exampleServer : MessageEndpointServer :=
  { asyncPort := 8003, syncPort := 8004, inprocLabel := "test", nThreads := 2,
    asyncHandler := exampleHandler true 2, syncHandler := exampleHandler false 2,
    started := false, shutdownLatch := none, requestLatch := none, shutdownPayload := [0],
    latchesCreated := 0 }

/-! ## `MessageEndpointServerHandler::start`: the threads and the startup latch -/

/-- The parties of a handler start: the thread that calls `start`, the receiver thread
and the worker threads, by index. -/
inductive Party
  | caller
  | receiver
  | worker (index : Nat)
deriving DecidableEq, Repr

/-- Where the calling thread is in `MessageEndpointServerHandler::start`: before
`Latch::create`, in the code that spawns the threads, in `startupLatch->wait()`, or
back from `start`. -/
inductive CallerPc
  | entry
  | spawning
  | waiting
  | returned
deriving DecidableEq, Repr

/-- Where the receiver thread is: just spawned, after `make_unique` of the fan-in, after
`make_unique` of the fan-out, in `startupLatch->wait()`, or in `attachFanOut`. -/
inductive ReceiverPc
  | spawned
  | fanInCreated
  | fanOutCreated
  | waiting
  | attached
deriving DecidableEq, Repr

/-- Where a worker thread is: just spawned, after `make_unique` of its receive endpoint,
in `startupLatch->wait()`, or in the dispatch loop. -/
inductive WorkerPc
  | spawned
  | endpointCreated
  | waiting
  | inLoop
deriving DecidableEq, Repr

/-- The threads of one `MessageEndpointServerHandler::start(timeoutMs)`, the required
count of the startup latch once it is created, and the calls of `startupLatch->wait()`
made so far, in order. -/
structure StartState where
  nThreads : Int
  startupLatch : Option Int
  arrivals : List Party
  caller : CallerPc
  receiverThread : Option ReceiverPc
  workerThreads : List WorkerPc
deriving DecidableEq, Repr

/-- The party has called `startupLatch->wait()`. -/
def arrived (s : StartState) : Party → Bool
  | Party.caller => s.caller = CallerPc.waiting || s.caller = CallerPc.returned
  | Party.receiver =>
    s.receiverThread = some ReceiverPc.waiting || s.receiverThread = some ReceiverPc.attached
  | Party.worker i =>
    s.workerThreads[i]? = some WorkerPc.waiting || s.workerThreads[i]? = some WorkerPc.inLoop

/-- How a worker thread ends, for a finite sequence of received messages: it runs to the
end of its body, an exception leaves it, or it is still in `endpoint->recv()`. -/
inductive ThreadExit
  | finished
  | raised (e : Error)
  | recvPending
deriving DecidableEq, Repr

/-- The check on the shutdown latch "just before the thread dies": a wait on the latch
loaded, if it is not null. -/
def shutdownLatchEvents : Option Latch → List WorkerEvent
  | some l => [WorkerEvent.shutdownLatchWait l]
  | none => []

/-- The body of a worker thread of `MessageEndpointServerHandler::start`: the inner block
(endpoint, startup latch, dispatch loop), then `server->onWorkerStop()` (the no-op of
`MessageEndpointServer`, recorded as a call) and the check on the shutdown latch.
`shutdownLatch` is the value the atomic load of `server->shutdownLatch` yields when the
worker gets there. An exception that leaves the loop leaves the thread function: nothing
after the inner block runs. -/
def workerThread (getResponseCode : Message → MessageResponseCode) (server : ServerHooks)
    (async : Bool) (inputs : List Received) (shutdownLatch : Option Latch) :
    List WorkerEvent × ThreadExit :=
  let loop := workerLoop getResponseCode server async inputs
  let inner := [WorkerEvent.endpointCreated async, WorkerEvent.startupLatchWait] ++ loop.1
  match loop.2 with
  | LoopExit.term =>
    (inner ++ [WorkerEvent.endpointReleased, WorkerEvent.onWorkerStop]
      ++ shutdownLatchEvents shutdownLatch, ThreadExit.finished)
  | LoopExit.raised e => (inner, ThreadExit.raised e)
  | LoopExit.recvPending => (inner, ThreadExit.recvPending)

/-- The events of the dispatch loop: receive, hook calls, reply, wait on the request
latch. -/
def WorkerEvent.inLoop : WorkerEvent → Bool
  | WorkerEvent.recv _ => true
  | WorkerEvent.doAsyncRecv _ => true
  | WorkerEvent.doSyncRecv _ => true
  | WorkerEvent.sendResponse _ _ _ => true
  | WorkerEvent.requestLatchWait _ => true
  | _ => false

/-- The latches a worker waited on as request latch, in order. -/
def requestLatchWaits : List WorkerEvent → List Latch
  | [] => []
  | WorkerEvent.requestLatchWait l :: es => l :: requestLatchWaits es
  | _ :: es => requestLatchWaits es

/-- Spec side of the request-latch claim: one wait for each `SUCCESS` message before
the first `TERM` after whose dispatch a request latch is installed, on that latch. -/
def expectedRequestLatchWaits (getResponseCode : Message → MessageResponseCode)
    (inputs : List Received) : List Latch :=
  ((inputs.takeWhile
      (fun r => getResponseCode r.body != MessageResponseCode.TERM)).filter
    (fun r => getResponseCode r.body == MessageResponseCode.SUCCESS)).filterMap
    Received.requestLatch

/-- The function `MessageEndpointServer::setRequestLatch`. -/
def MessageEndpointServer.setRequestLatch (s : MessageEndpointServer) :
    MessageEndpointServer × List ServerEvent :=
  -- atomic_store(&requestLatch, Latch::create(2))
  let latch : Latch := ⟨s.latchesCreated, 2⟩
  ({ s with latchesCreated := s.latchesCreated + 1, requestLatch := some latch },
    [ServerEvent.latchCreate latch, ServerEvent.storeRequestLatch (some latch)])

/-- The function `MessageEndpointServer::awaitRequestLatch`. The result is `none` if the
latch loaded for the wait is null. -/
def MessageEndpointServer.awaitRequestLatch (s : MessageEndpointServer) :
    Option (MessageEndpointServer × List ServerEvent) :=
  -- atomic_load(&requestLatch)->wait(); atomic_store(&requestLatch, nullptr)
  match s.requestLatch with
  | none => none
  | some loaded =>
    some ({ s with requestLatch := none },
      [ServerEvent.latchWait loaded, ServerEvent.storeRequestLatch none])

/-! ## `MessageEndpointServer::stop` and the worker threads: interleaving -/

/-- Where a worker is once it has left its dispatch loop on `TERM`: still inside the inner
block, after the block (endpoint out of scope), after `onWorkerStop()`, after the atomic
load of the shutdown latch, in `wait()` on the latch loaded, or at the end of its
thread. -/
inductive TeardownStage
  | leftLoop
  | released
  | stopped
  | loaded (latch : Option Nat)
  | arrived (latch : Nat)
  | done (latch : Option Nat)
deriving DecidableEq, Repr

/-- The receive endpoint of the worker has gone out of scope. -/
def TeardownStage.endpointReleased : TeardownStage → Bool
  | TeardownStage.leftLoop => false
  | _ => true

/-- Spec side of a handler join: the call itself, the stop of each fan-in proxy that
exists (the sync one first), the join of every joinable worker thread in the order of the
threads, then the join of the receiver thread if it is joinable. -/
def expectedJoinEvents (h : MessageEndpointServerHandler) : List ServerEvent :=
  [ServerEvent.handlerJoin h.async]
    ++ (if h.syncFanIn then [ServerEvent.fanInStop false] else [])
    ++ (if h.asyncFanIn then [ServerEvent.fanInStop true] else [])
    ++ ((List.range h.workerThreads.length).filter
          (fun i => h.workerThreads[i]? == some ThreadHandle.running)).map
        (ServerEvent.workerJoin h.async)
    ++ (if h.receiverThread = ThreadHandle.running then
          [ServerEvent.receiverJoin h.async] else [])

/-- A thread handle after `if (t.joinable()) t.join();`. -/
def ThreadHandle.afterJoin (t : ThreadHandle) : ThreadHandle :=
  if t = ThreadHandle.running then ThreadHandle.joined else t

/-- Spec side of a handler join, the state: every joinable thread has been joined, and
nothing else has changed. -/
def expectedJoined (h : MessageEndpointServerHandler) : MessageEndpointServerHandler :=
  { h with workerThreads := h.workerThreads.map ThreadHandle.afterJoin,
           receiverThread := h.receiverThread.afterJoin }

/-- No thread of the handler is joinable. -/
def MessageEndpointServerHandler.allJoined (h : MessageEndpointServerHandler) : Bool :=
  h.workerThreads.all (fun t => t != ThreadHandle.running)
    && h.receiverThread != ThreadHandle.running

/-- A socket on which nothing arrives in time and nothing is sent: every call returns
no result. -/
def timeoutSocket : socket_t :=
  { send := fun _ _ => .ok none,
    recv_buffer := fun capacity => .ok (List.replicate capacity 0, none),
    recv_msg := .ok ([], none) }

/-- A socket whose context is terminating (every call throws `ETERM`) when `num` is
`ZMQ_ETERM`, and that fails with another transport error otherwise. -/
def throwingSocket (num : Int) : socket_t :=
  { send := fun _ _ => .error ⟨num⟩,
    recv_buffer := fun _ => .error ⟨num⟩,
    recv_msg := .error ⟨num⟩ }

/-- A socket that sends every buffer whole and on which the message `bytes` arrives
(truncated to the capacity of the buffer it is received into). -/
def deliveringSocket (bytes : List Nat) : socket_t :=
  { send := fun b _ => .ok (some b.size),
    recv_buffer := fun capacity =>
      .ok (bytes.take capacity ++ List.replicate (capacity - bytes.length) 0,
        some ⟨min bytes.length capacity, bytes.length⟩),
    recv_msg := .ok (bytes, some bytes.length) }

/-- A socket that sends one byte less than it is asked to. -/
def shortSendSocket : socket_t :=
  { send := fun b _ => .ok (some (b.size - 1)),
    recv_buffer := fun _ => .ok ([], none),
    recv_msg := .ok ([], none) }

/-! # Theorems -/

/-! ## `MessageEndpoint::send` and `MessageEndpoint::recv`: claims -/

/-- C6, as stated, fails for every way of reading a status off a `Message`: a receive
without size hint that times out makes `recv` raise a runtime error instead of returning
a message of status TIMEOUT. -/
theorem recv_timeout_not_a_message :
    ¬ ∃ gc : Message → MessageResponseCode,
        ∀ (socket : socket_t) (size : Int) (data : List Nat), 0 ≤ size →
          ((0 < size ∧ socket.recv_buffer size.toNat = .ok (data, none))
            ∨ (size = 0 ∧ socket.recv_msg = .ok (data, none))) →
          ∃ m, MessageEndpoint.recv socket size = .ok m ∧ gc m = MessageResponseCode.TIMEOUT := by
  rintro ⟨gc, h⟩
  obtain ⟨m, hm, _⟩ := h timeoutSocket 0 [] (le_refl 0) (Or.inr ⟨rfl, rfl⟩)
  have : MessageEndpoint.recv timeoutSocket 0
      = .error (Error.runtime_error What.errorReceivingMessage) := rfl
  rw [this] at hm
  cases hm

/-- C6, amended: a receive without a size hint that times out (the transport returns no
result) makes `recv` raise a runtime error ("Error receiving message"); it returns no
Message, so none of status TIMEOUT. -/
theorem recv_timeout (socket : socket_t) (data : List Nat)
    (h : socket.recv_msg = .ok (data, none)) :
    MessageEndpoint.recv socket 0 = .error (Error.runtime_error What.errorReceivingMessage)
      ∧ ∀ m, MessageEndpoint.recv socket 0 ≠ .ok m := by
  have e : MessageEndpoint.recv socket 0
      = .error (Error.runtime_error What.errorReceivingMessage) := by
    simp [MessageEndpoint.recv, h]
  refine ⟨e, ?_⟩
  intro m hm
  rw [e] at hm
  cases hm

/-- Witness of `recv_timeout`: on a socket where nothing arrives, `recv()` raises. -/
theorem recv_timeout_witness :
    MessageEndpoint.recv timeoutSocket 0
      = .error (Error.runtime_error What.errorReceivingMessage) :=
  (recv_timeout timeoutSocket [] rfl).1

/-- C7: for every size hint (zero or positive), when the transport throws during the
receive, `recv` returns the empty Message and raises nothing if the error is ETERM, and
re-raises the transport error unchanged otherwise. -/
theorem recv_transport_error (socket : socket_t) (size : Int) (e : error_t)
    (h0 : 0 ≤ size)
    (h : (0 < size ∧ socket.recv_buffer size.toNat = .error e)
      ∨ (size = 0 ∧ socket.recv_msg = .error e)) :
    (e.num = ZMQ_ETERM → MessageEndpoint.recv socket size = .ok Message.empty)
      ∧ (e.num ≠ ZMQ_ETERM → MessageEndpoint.recv socket size = .error (Error.zmq e)) := by
  rcases h with ⟨hp, h⟩ | ⟨hz, h⟩
  · constructor <;> intro he <;> simp [MessageEndpoint.recv, hp, h, he]
  · subst hz
    constructor <;> intro he <;> simp [MessageEndpoint.recv, h, he]

/-- Witness of `recv_transport_error`: ETERM gives the empty Message with and without a
size hint; the transport error 11 is re-raised. -/
theorem recv_transport_error_witness :
    MessageEndpoint.recv (throwingSocket ZMQ_ETERM) 0 = .ok Message.empty
      ∧ MessageEndpoint.recv (throwingSocket ZMQ_ETERM) 8 = .ok Message.empty
      ∧ MessageEndpoint.recv (throwingSocket 11) 8 = .error (Error.zmq ⟨11⟩) :=
  ⟨(recv_transport_error (throwingSocket ZMQ_ETERM) 0 ⟨ZMQ_ETERM⟩ (by decide)
      (Or.inr ⟨rfl, rfl⟩)).1 rfl,
    (recv_transport_error (throwingSocket ZMQ_ETERM) 8 ⟨ZMQ_ETERM⟩ (by decide)
      (Or.inl ⟨by decide, rfl⟩)).1 rfl,
    (recv_transport_error (throwingSocket 11) 8 ⟨11⟩ (by decide)
      (Or.inl ⟨by decide, rfl⟩)).2 (by decide)⟩

/-- C8: `send(buffer, size, more)` returns normally if and only if the transport reports
having sent exactly `size` bytes; a different count or no count raises a runtime error,
and a transport error is re-raised. The condition is the same for `more = true` and
`more = false`: the two calls differ only in the flag handed to the transport. -/
theorem send_ok_iff_exact (socket : socket_t) (serialisedMsg : List Nat) (msgSize : Nat)
    (more : Bool) :
    (MessageEndpoint.send socket serialisedMsg msgSize more = .ok ()
        ↔ socket.send ⟨serialisedMsg, msgSize⟩ (sendFlagsOf more) = .ok (some msgSize))
      ∧ (∀ res, socket.send ⟨serialisedMsg, msgSize⟩ (sendFlagsOf more) = .ok res →
          res ≠ some msgSize →
          MessageEndpoint.send socket serialisedMsg msgSize more
            = .error (Error.runtime_error What.errorSendingMessage))
      ∧ (∀ e, socket.send ⟨serialisedMsg, msgSize⟩ (sendFlagsOf more) = .error e →
          MessageEndpoint.send socket serialisedMsg msgSize more = .error (Error.zmq e))
      ∧ (socket.send ⟨serialisedMsg, msgSize⟩ send_flags.sndmore
            = socket.send ⟨serialisedMsg, msgSize⟩ send_flags.none →
          MessageEndpoint.send socket serialisedMsg msgSize true
            = MessageEndpoint.send socket serialisedMsg msgSize false) := by
  refine ⟨?_, ?_, ?_, ?_⟩
  · cases more <;> simp only [MessageEndpoint.send, sendFlagsOf]
    · cases hs : socket.send ⟨serialisedMsg, msgSize⟩ send_flags.none with
      | error e => simp [hs]
      | ok res => by_cases hr : res = some msgSize <;> simp [hs, hr]
    · cases hs : socket.send ⟨serialisedMsg, msgSize⟩ send_flags.sndmore with
      | error e => simp [hs]
      | ok res => by_cases hr : res = some msgSize <;> simp [hs, hr]
  · intro res hs hr
    cases more <;> simp only [sendFlagsOf] at hs <;> simp_all [MessageEndpoint.send]
  · intro e hs
    cases more <;> simp only [sendFlagsOf] at hs <;> simp_all [MessageEndpoint.send]
  · intro h
    simp only [MessageEndpoint.send, h, if_true, Bool.false_eq_true, if_false]

/-- Witness of `send_ok_iff_exact`: a whole send returns, a short send raises, with
either flag. -/
theorem send_ok_iff_exact_witness :
    MessageEndpoint.send (deliveringSocket []) [1, 2, 3] 3 true = .ok ()
      ∧ MessageEndpoint.send shortSendSocket [1, 2, 3] 3 false
          = .error (Error.runtime_error What.errorSendingMessage)
      ∧ MessageEndpoint.send (throwingSocket 11) [1, 2, 3] 3 true = .error (Error.zmq ⟨11⟩) :=
  ⟨(send_ok_iff_exact (deliveringSocket []) [1, 2, 3] 3 true).1.2 rfl,
    (send_ok_iff_exact shortSendSocket [1, 2, 3] 3 false).2.1 (some 2) rfl (by decide),
    (send_ok_iff_exact (throwingSocket 11) [1, 2, 3] 3 true).2.2.1 ⟨11⟩ rfl⟩

/-- C9: for every size hint n > 0, `recv(n)` receives into a pre-allocated buffer of
exactly n bytes and raises a runtime error if and only if the transport delivers a
message whose untruncated size differs from the stored size, which (the stored size
being the smaller of the message size and n) is when the message has more bytes than the
buffer holds; a delivered message of at most n bytes is returned without error as the
n-byte pre-allocated Message. -/
theorem recv_sized (socket : socket_t) (n : Int) (hn : 0 < n) :
    (MessageEndpoint.recv socket n = .error (Error.runtime_error What.errorReceivingMessage)
        ↔ ∃ data r, socket.recv_buffer n.toNat = .ok (data, some r)
            ∧ r.size ≠ r.untruncated_size)
      ∧ (∀ data r, socket.recv_buffer n.toNat = .ok (data, some r) →
          r.size = min r.untruncated_size n.toNat →
          (n.toNat < r.untruncated_size →
              MessageEndpoint.recv socket n
                = .error (Error.runtime_error What.errorReceivingMessage))
            ∧ (r.untruncated_size ≤ n.toNat →
              MessageEndpoint.recv socket n = .ok (Message.sized n.toNat data))) := by
  constructor
  · cases hs : socket.recv_buffer n.toNat with
    | error e =>
      by_cases he : e.num = ZMQ_ETERM <;> simp [MessageEndpoint.recv, hn, hs, he]
    | ok p =>
      obtain ⟨data, res⟩ := p
      cases res with
      | none => simp [MessageEndpoint.recv, hn, hs]
      | some r =>
        by_cases hr : r.size = r.untruncated_size
        · simp [MessageEndpoint.recv, hn, hs, hr]
        · simp only [MessageEndpoint.recv, hn, hs]
          constructor
          · intro _
            exact ⟨data, r, rfl, hr⟩
          · intro _
            simp [hr]
  · intro data r hs hmin
    constructor
    · intro hlt
      have hr : r.size ≠ r.untruncated_size := by
        rw [hmin]; omega
      simp [MessageEndpoint.recv, hn, hs, hr]
    · intro hle
      have hr : r.size = r.untruncated_size := by rw [hmin]; exact Nat.min_eq_left hle
      simp [MessageEndpoint.recv, hn, hs, hr]

/-- Witness of `recv_sized`: a three-byte message received with hint 4 is returned in the
four-byte buffer; received with hint 2 it raises. -/
theorem recv_sized_witness :
    MessageEndpoint.recv (deliveringSocket [7, 8, 9]) 4 = .ok (Message.sized 4 [7, 8, 9, 0])
      ∧ MessageEndpoint.recv (deliveringSocket [7, 8, 9]) 2
          = .error (Error.runtime_error What.errorReceivingMessage) :=
  ⟨((recv_sized (deliveringSocket [7, 8, 9]) 4 (by decide)).2 [7, 8, 9, 0] ⟨3, 3⟩ rfl
      (by decide)).2 (by decide),
    ((recv_sized (deliveringSocket [7, 8, 9]) 2 (by decide)).2 [7, 8] ⟨2, 3⟩ rfl
      (by decide)).1 (by decide)⟩


/-! ## Lemmas on the dispatch loop -/

theorem prependEvents_fst {ε : Type} (es : List WorkerEvent) (p : List WorkerEvent × ε) :
    (prependEvents es p).1 = es ++ p.1 := rfl

theorem prependEvents_snd {ε : Type} (es : List WorkerEvent) (p : List WorkerEvent × ε) :
    (prependEvents es p).2 = p.2 := rfl

theorem prependEvents_prependEvents {ε : Type} (es fs : List WorkerEvent)
    (p : List WorkerEvent × ε) :
    prependEvents es (prependEvents fs p) = prependEvents (es ++ fs) p := by
  simp [prependEvents, List.append_assoc]

theorem workerLoop_nil (gc : Message → MessageResponseCode) (srv : ServerHooks)
    (async : Bool) : workerLoop gc srv async [] = ([], LoopExit.recvPending) := rfl

theorem workerLoop_term (gc : Message → MessageResponseCode) (srv : ServerHooks)
    (async : Bool) (r : Received) (rest : List Received)
    (h : gc r.body = MessageResponseCode.TERM) :
    workerLoop gc srv async (r :: rest) = ([WorkerEvent.recv r.body], LoopExit.term) := by
  rw [workerLoop, if_pos h]

theorem workerLoop_timeout (gc : Message → MessageResponseCode) (srv : ServerHooks)
    (async : Bool) (r : Received) (rest : List Received)
    (h : gc r.body = MessageResponseCode.TIMEOUT) :
    workerLoop gc srv async (r :: rest)
      = prependEvents [WorkerEvent.recv r.body] (workerLoop gc srv async rest) := by
  rw [workerLoop, if_neg (by rw [h]; decide), if_pos h]

theorem workerLoop_other (gc : Message → MessageResponseCode) (srv : ServerHooks)
    (async : Bool) (r : Received) (rest : List Received)
    (h : handledStatus (gc r.body) = false) :
    workerLoop gc srv async (r :: rest)
      = ([WorkerEvent.recv r.body],
          LoopExit.raised (Error.runtime_error What.unsuccessfulMessage)) := by
  have h1 : gc r.body ≠ MessageResponseCode.TERM := by
    intro hc; rw [hc] at h; simp [handledStatus] at h
  have h2 : gc r.body ≠ MessageResponseCode.TIMEOUT := by
    intro hc; rw [hc] at h; simp [handledStatus] at h
  have h3 : gc r.body ≠ MessageResponseCode.SUCCESS := by
    intro hc; rw [hc] at h; simp [handledStatus] at h
  rw [workerLoop, if_neg h1, if_neg h2, if_pos h3]

/-- The pass of the loop over a `SUCCESS` message, with the three status tests done. -/
theorem workerLoop_success (gc : Message → MessageResponseCode) (srv : ServerHooks)
    (async : Bool) (r : Received) (rest : List Received)
    (h : gc r.body = MessageResponseCode.SUCCESS) :
    workerLoop gc srv async (r :: rest)
      = if async then
          match srv.doAsyncRecv r.body with
          | .error e =>
            ([WorkerEvent.recv r.body, WorkerEvent.doAsyncRecv r.body], LoopExit.raised e)
          | .ok _ =>
            prependEvents
              ([WorkerEvent.recv r.body, WorkerEvent.doAsyncRecv r.body]
                ++ requestLatchEvents r.requestLatch)
              (workerLoop gc srv async rest)
        else
          match srv.doSyncRecv r.body with
          | .error e =>
            ([WorkerEvent.recv r.body, WorkerEvent.doSyncRecv r.body], LoopExit.raised e)
          | .ok resp =>
            match resp.SerializeToArray resp.ByteSizeLong with
            | none =>
              ([WorkerEvent.recv r.body, WorkerEvent.doSyncRecv r.body],
                LoopExit.raised (Error.runtime_error What.errorSerialisingMessage))
            | some buffer =>
              prependEvents
                ([WorkerEvent.recv r.body, WorkerEvent.doSyncRecv r.body,
                    WorkerEvent.sendResponse Header.NO_HEADER buffer resp.ByteSizeLong]
                  ++ requestLatchEvents r.requestLatch)
                (workerLoop gc srv async rest) := by
  rw [workerLoop, if_neg (by rw [h]; decide), if_neg (by rw [h]; decide),
    if_neg (by rw [h]; simp)]

theorem workerLoop_async_ok (gc : Message → MessageResponseCode) (srv : ServerHooks)
    (r : Received) (rest : List Received) (u : Unit)
    (h : gc r.body = MessageResponseCode.SUCCESS) (hd : srv.doAsyncRecv r.body = .ok u) :
    workerLoop gc srv true (r :: rest)
      = prependEvents
          ([WorkerEvent.recv r.body, WorkerEvent.doAsyncRecv r.body]
            ++ requestLatchEvents r.requestLatch)
          (workerLoop gc srv true rest) := by
  rw [workerLoop_success gc srv true r rest h, if_pos rfl, hd]

theorem workerLoop_async_error (gc : Message → MessageResponseCode) (srv : ServerHooks)
    (r : Received) (rest : List Received) (e : Error)
    (h : gc r.body = MessageResponseCode.SUCCESS) (hd : srv.doAsyncRecv r.body = .error e) :
    workerLoop gc srv true (r :: rest)
      = ([WorkerEvent.recv r.body, WorkerEvent.doAsyncRecv r.body], LoopExit.raised e) := by
  rw [workerLoop_success gc srv true r rest h, if_pos rfl, hd]

theorem workerLoop_sync_error (gc : Message → MessageResponseCode) (srv : ServerHooks)
    (r : Received) (rest : List Received) (e : Error)
    (h : gc r.body = MessageResponseCode.SUCCESS) (hd : srv.doSyncRecv r.body = .error e) :
    workerLoop gc srv false (r :: rest)
      = ([WorkerEvent.recv r.body, WorkerEvent.doSyncRecv r.body], LoopExit.raised e) := by
  rw [workerLoop_success gc srv false r rest h, if_neg (by decide), hd]

theorem workerLoop_sync_serialise_fail (gc : Message → MessageResponseCode)
    (srv : ServerHooks) (r : Received) (rest : List Received) (resp : ProtoMessage)
    (h : gc r.body = MessageResponseCode.SUCCESS) (hd : srv.doSyncRecv r.body = .ok resp)
    (hb : resp.SerializeToArray resp.ByteSizeLong = none) :
    workerLoop gc srv false (r :: rest)
      = ([WorkerEvent.recv r.body, WorkerEvent.doSyncRecv r.body],
          LoopExit.raised (Error.runtime_error What.errorSerialisingMessage)) := by
  rw [workerLoop_success gc srv false r rest h, if_neg (by decide), hd]
  simp only [hb]

theorem workerLoop_sync_ok (gc : Message → MessageResponseCode) (srv : ServerHooks)
    (r : Received) (rest : List Received) (resp : ProtoMessage) (buffer : List Nat)
    (h : gc r.body = MessageResponseCode.SUCCESS) (hd : srv.doSyncRecv r.body = .ok resp)
    (hb : resp.SerializeToArray resp.ByteSizeLong = some buffer) :
    workerLoop gc srv false (r :: rest)
      = prependEvents
          ([WorkerEvent.recv r.body, WorkerEvent.doSyncRecv r.body,
              WorkerEvent.sendResponse Header.NO_HEADER buffer resp.ByteSizeLong]
            ++ requestLatchEvents r.requestLatch)
          (workerLoop gc srv false rest) := by
  rw [workerLoop_success gc srv false r rest h, if_neg (by decide), hd]
  simp only [hb]

/-- Every status is `SUCCESS`, `TERM`, `TIMEOUT`, or not handled. -/
theorem status_cases (c : MessageResponseCode) :
    c = MessageResponseCode.SUCCESS ∨ c = MessageResponseCode.TERM
      ∨ c = MessageResponseCode.TIMEOUT ∨ handledStatus c = false := by
  cases c <;> simp [handledStatus]

/-- A loop that is back in `recv` after `pre` goes on with the rest of the messages. -/
theorem workerLoop_append (gc : Message → MessageResponseCode) (srv : ServerHooks)
    (async : Bool) (pre rest : List Received)
    (h : (workerLoop gc srv async pre).2 = LoopExit.recvPending) :
    workerLoop gc srv async (pre ++ rest)
      = prependEvents (workerLoop gc srv async pre).1 (workerLoop gc srv async rest) := by
  induction pre with
  | nil => simp [workerLoop_nil, prependEvents]
  | cons r pre ih =>
    simp only [List.cons_append]
    rcases status_cases (gc r.body) with hs | hs | hs | hs
    · cases async with
      | true =>
        cases hd : srv.doAsyncRecv r.body with
        | error e => rw [workerLoop_async_error gc srv r pre e hs hd] at h; simp at h
        | ok u =>
          rw [workerLoop_async_ok gc srv r pre u hs hd, prependEvents_snd] at h
          rw [workerLoop_async_ok gc srv r _ u hs hd, workerLoop_async_ok gc srv r _ u hs hd,
            ih h, prependEvents_prependEvents, prependEvents_fst]
      | false =>
        cases hd : srv.doSyncRecv r.body with
        | error e => rw [workerLoop_sync_error gc srv r pre e hs hd] at h; simp at h
        | ok resp =>
          cases hb : resp.SerializeToArray resp.ByteSizeLong with
          | none => rw [workerLoop_sync_serialise_fail gc srv r pre resp hs hd hb] at h; simp at h
          | some buffer =>
            rw [workerLoop_sync_ok gc srv r pre resp buffer hs hd hb, prependEvents_snd] at h
            rw [workerLoop_sync_ok gc srv r _ resp buffer hs hd hb,
              workerLoop_sync_ok gc srv r _ resp buffer hs hd hb,
              ih h, prependEvents_prependEvents, prependEvents_fst]
    · rw [workerLoop_term gc srv async r pre hs] at h; simp at h
    · rw [workerLoop_timeout gc srv async r pre hs, prependEvents_snd] at h
      rw [workerLoop_timeout gc srv async r _ hs, workerLoop_timeout gc srv async r _ hs,
        ih h, prependEvents_prependEvents, prependEvents_fst]
    · rw [workerLoop_other gc srv async r pre hs] at h; simp at h

theorem hookCalls_append (async : Bool) (xs ys : List WorkerEvent) :
    hookCalls async (xs ++ ys) = hookCalls async xs ++ hookCalls async ys := by
  induction xs with
  | nil => rfl
  | cons e xs ih =>
    cases e <;> cases async <;> simp_all [hookCalls]

theorem hookCalls_requestLatchEvents (async : Bool) (l : Option Latch) :
    hookCalls async (requestLatchEvents l) = [] := by
  cases l <;> rfl

theorem responsesSent_append (xs ys : List WorkerEvent) :
    responsesSent (xs ++ ys) = responsesSent xs ++ responsesSent ys := by
  induction xs with
  | nil => rfl
  | cons e xs ih => cases e <;> simp [responsesSent, ih]

theorem responsesSent_requestLatchEvents (l : Option Latch) :
    responsesSent (requestLatchEvents l) = [] := by
  cases l <;> rfl

theorem expectedHookCalls_cons (gc : Message → MessageResponseCode) (r : Received)
    (l : List Received) :
    expectedHookCalls gc (r :: l)
      = if gc r.body = MessageResponseCode.TERM then []
        else if gc r.body = MessageResponseCode.SUCCESS then r.body :: expectedHookCalls gc l
        else expectedHookCalls gc l := by
  unfold expectedHookCalls
  by_cases h1 : gc r.body = MessageResponseCode.TERM
  · simp [h1, List.takeWhile_cons]
  · by_cases h2 : gc r.body = MessageResponseCode.SUCCESS
    · simp [h1, h2, List.takeWhile_cons, List.filter_cons]
    · simp [h1, h2, List.takeWhile_cons, List.filter_cons]

theorem expectedExit_cons (gc : Message → MessageResponseCode) (r : Received)
    (l : List Received) :
    expectedExit gc (r :: l)
      = if gc r.body = MessageResponseCode.TERM then LoopExit.term else expectedExit gc l := by
  unfold expectedExit
  by_cases h1 : gc r.body = MessageResponseCode.TERM <;> simp [h1]

/-- When every status is handled and nothing raises, the hook is called with the
`SUCCESS` messages before the first `TERM`, and the loop is left on that `TERM` only. -/
theorem workerLoop_of_hooksSucceed (gc : Message → MessageResponseCode) (srv : ServerHooks)
    (async : Bool) (inputs : List Received)
    (hS : ∀ r ∈ inputs, handledStatus (gc r.body) = true)
    (hH : HooksSucceed srv async inputs) :
    hookCalls async (workerLoop gc srv async inputs).1 = expectedHookCalls gc inputs
      ∧ (workerLoop gc srv async inputs).2 = expectedExit gc inputs := by
  induction inputs with
  | nil => exact ⟨rfl, rfl⟩
  | cons r l ih =>
    have hS2 : ∀ x ∈ l, handledStatus (gc x.body) = true :=
      fun x hx => hS x (List.mem_cons_of_mem _ hx)
    have hH2 : HooksSucceed srv async l := fun x hx => hH x (List.mem_cons_of_mem _ hx)
    obtain ⟨ih1, ih2⟩ := ih hS2 hH2
    have hr := hH r (List.mem_cons_self _ _)
    rw [expectedHookCalls_cons, expectedExit_cons]
    rcases status_cases (gc r.body) with hs | hs | hs | hs
    · have n1 : gc r.body ≠ MessageResponseCode.TERM := by rw [hs]; decide
      rw [if_neg n1, if_pos hs, if_neg n1]
      cases async with
      | true =>
        simp only [if_true] at hr
        obtain ⟨u, hu⟩ := hr
        rw [workerLoop_async_ok gc srv r l u hs hu, prependEvents_fst, prependEvents_snd,
          hookCalls_append, hookCalls_append, hookCalls_requestLatchEvents, ih1, ih2]
        simp [hookCalls]
      | false =>
        simp only [Bool.false_eq_true, if_false] at hr
        obtain ⟨resp, buffer, hd, hb⟩ := hr
        rw [workerLoop_sync_ok gc srv r l resp buffer hs hd hb, prependEvents_fst,
          prependEvents_snd, hookCalls_append, hookCalls_append, hookCalls_requestLatchEvents,
          ih1, ih2]
        simp [hookCalls]
    · rw [if_pos hs, if_pos hs, workerLoop_term gc srv async r l hs]
      exact ⟨rfl, rfl⟩
    · have n1 : gc r.body ≠ MessageResponseCode.TERM := by rw [hs]; decide
      have n2 : gc r.body ≠ MessageResponseCode.SUCCESS := by rw [hs]; decide
      rw [if_neg n1, if_neg n2, if_neg n1, workerLoop_timeout gc srv async r l hs,
        prependEvents_fst, prependEvents_snd, hookCalls_append, ih1, ih2]
      exact ⟨rfl, rfl⟩
    · have := hS r (List.mem_cons_self _ _)
      rw [hs] at this; cases this

/-- A `TIMEOUT` message anywhere in the sequence changes neither the hook calls, nor the
responses, nor the way the loop is left. -/
theorem workerLoop_skip_timeout (gc : Message → MessageResponseCode) (srv : ServerHooks)
    (async : Bool) (pre post : List Received) (t : Received)
    (ht : gc t.body = MessageResponseCode.TIMEOUT) :
    hookCalls async (workerLoop gc srv async (pre ++ t :: post)).1
        = hookCalls async (workerLoop gc srv async (pre ++ post)).1
      ∧ responsesSent (workerLoop gc srv async (pre ++ t :: post)).1
        = responsesSent (workerLoop gc srv async (pre ++ post)).1
      ∧ (workerLoop gc srv async (pre ++ t :: post)).2
        = (workerLoop gc srv async (pre ++ post)).2 := by
  induction pre with
  | nil =>
    simp only [List.nil_append]
    rw [workerLoop_timeout gc srv async t post ht]
    exact ⟨rfl, rfl, rfl⟩
  | cons r pre ih =>
    obtain ⟨ih1, ih2, ih3⟩ := ih
    simp only [List.cons_append]
    rcases status_cases (gc r.body) with hs | hs | hs | hs
    · cases async with
      | true =>
        cases hd : srv.doAsyncRecv r.body with
        | error e =>
          rw [workerLoop_async_error gc srv r _ e hs hd, workerLoop_async_error gc srv r _ e hs hd]
          exact ⟨rfl, rfl, rfl⟩
        | ok u =>
          rw [workerLoop_async_ok gc srv r _ u hs hd, workerLoop_async_ok gc srv r _ u hs hd]
          simp only [prependEvents_fst, prependEvents_snd, hookCalls_append,
            responsesSent_append, ih1, ih2, ih3, and_self]
      | false =>
        cases hd : srv.doSyncRecv r.body with
        | error e =>
          rw [workerLoop_sync_error gc srv r _ e hs hd, workerLoop_sync_error gc srv r _ e hs hd]
          exact ⟨rfl, rfl, rfl⟩
        | ok resp =>
          cases hb : resp.SerializeToArray resp.ByteSizeLong with
          | none =>
            rw [workerLoop_sync_serialise_fail gc srv r _ resp hs hd hb,
              workerLoop_sync_serialise_fail gc srv r _ resp hs hd hb]
            exact ⟨rfl, rfl, rfl⟩
          | some buffer =>
            rw [workerLoop_sync_ok gc srv r _ resp buffer hs hd hb,
              workerLoop_sync_ok gc srv r _ resp buffer hs hd hb]
            simp only [prependEvents_fst, prependEvents_snd, hookCalls_append,
              responsesSent_append, ih1, ih2, ih3, and_self]
    · rw [workerLoop_term gc srv async r _ hs, workerLoop_term gc srv async r _ hs]
      exact ⟨rfl, rfl, rfl⟩
    · rw [workerLoop_timeout gc srv async r _ hs, workerLoop_timeout gc srv async r _ hs]
      simp only [prependEvents_fst, prependEvents_snd, hookCalls_append,
        responsesSent_append, ih1, ih2, ih3, and_self]
    · rw [workerLoop_other gc srv async r _ hs, workerLoop_other gc srv async r _ hs]
      exact ⟨rfl, rfl, rfl⟩

theorem expectedHookCalls_successes_then_term (gc : Message → MessageResponseCode)
    (succs : List Received) (t : Received)
    (hs : ∀ r ∈ succs, gc r.body = MessageResponseCode.SUCCESS)
    (ht : gc t.body = MessageResponseCode.TERM) :
    expectedHookCalls gc (succs ++ [t]) = succs.map Received.body := by
  induction succs with
  | nil => simp [expectedHookCalls_cons, ht]
  | cons r l ih =>
    have h1 := hs r (List.mem_cons_self _ _)
    have n1 : gc r.body ≠ MessageResponseCode.TERM := by rw [h1]; decide
    simp only [List.cons_append, List.map_cons]
    rw [expectedHookCalls_cons, if_neg n1, if_pos h1,
      ih (fun x hx => hs x (List.mem_cons_of_mem _ hx))]

/-- The async loop never sends a response. -/
theorem responsesSent_async (gc : Message → MessageResponseCode) (srv : ServerHooks)
    (inputs : List Received) :
    responsesSent (workerLoop gc srv true inputs).1 = [] := by
  induction inputs with
  | nil => rfl
  | cons r l ih =>
    rcases status_cases (gc r.body) with hs | hs | hs | hs
    · cases hd : srv.doAsyncRecv r.body with
      | error e => rw [workerLoop_async_error gc srv r _ e hs hd]; rfl
      | ok u =>
        rw [workerLoop_async_ok gc srv r _ u hs hd, prependEvents_fst, responsesSent_append,
          responsesSent_append, responsesSent_requestLatchEvents, ih]
        rfl
    · rw [workerLoop_term gc srv true r _ hs]; rfl
    · rw [workerLoop_timeout gc srv true r _ hs, prependEvents_fst, responsesSent_append, ih]
      rfl
    · rw [workerLoop_other gc srv true r _ hs]; rfl

/-- The trace of the loop is empty or starts with the receive of the first message. -/
theorem workerLoop_head (gc : Message → MessageResponseCode) (srv : ServerHooks)
    (async : Bool) (inputs : List Received) :
    (workerLoop gc srv async inputs).1.head?
      = inputs.head?.map (fun r => WorkerEvent.recv r.body) := by
  cases inputs with
  | nil => rfl
  | cons r l =>
    rcases status_cases (gc r.body) with hs | hs | hs | hs
    · cases async with
      | true =>
        cases hd : srv.doAsyncRecv r.body with
        | error e => rw [workerLoop_async_error gc srv r _ e hs hd]; rfl
        | ok u => rw [workerLoop_async_ok gc srv r _ u hs hd]; rfl
      | false =>
        cases hd : srv.doSyncRecv r.body with
        | error e => rw [workerLoop_sync_error gc srv r _ e hs hd]; rfl
        | ok resp =>
          cases hb : resp.SerializeToArray resp.ByteSizeLong with
          | none => rw [workerLoop_sync_serialise_fail gc srv r _ resp hs hd hb]; rfl
          | some buffer => rw [workerLoop_sync_ok gc srv r _ resp buffer hs hd hb]; rfl
    · rw [workerLoop_term gc srv async r _ hs]; rfl
    · rw [workerLoop_timeout gc srv async r _ hs]; rfl
    · rw [workerLoop_other gc srv async r _ hs]; rfl

theorem exampleReply_serialises (bytes : List Nat) :
    (exampleReply bytes).SerializeToArray (exampleReply bytes).ByteSizeLong = some bytes := by
  simp [exampleReply]

/-- The example hooks never fail, and their replies serialise. -/
theorem exampleHooks_succeed (async : Bool) (inputs : List Received) :
    HooksSucceed exampleHooks async inputs := by
  intro r _
  cases async with
  | true => exact ⟨(), rfl⟩
  | false => exact ⟨_, _, rfl, exampleReply_serialises _⟩

theorem workerLoopOn_cons (gc : Message → MessageResponseCode) (srv : ServerHooks)
    (ep : WorkerEndpoint) (async : Bool) (r : Received) (rest : List (Except Error Received)) :
    workerLoopOn gc srv ep async (.ok r :: rest)
      = if (workerLoopOn gc srv ep async [.ok r]).2 = LoopExit.recvPending then
          prependEvents (workerLoopOn gc srv ep async [.ok r]).1
            (workerLoopOn gc srv ep async rest)
        else
          workerLoopOn gc srv ep async [.ok r] := by
  by_cases h1 : gc r.body = MessageResponseCode.TERM
  · simp [workerLoopOn, h1]
  by_cases h2 : gc r.body = MessageResponseCode.TIMEOUT
  · simp [workerLoopOn, h1, h2, prependEvents]
  by_cases h3 : gc r.body = MessageResponseCode.SUCCESS
  swap
  · simp [workerLoopOn, h1, h2, h3]
  cases async with
  | true =>
    cases hd : srv.doAsyncRecv r.body with
    | error e => simp [workerLoopOn, h1, h2, h3, hd]
    | ok u => simp [workerLoopOn, h1, h2, h3, hd, prependEvents]
  | false =>
    cases hd : srv.doSyncRecv r.body with
    | error e => simp [workerLoopOn, h1, h2, h3, hd]
    | ok resp =>
      cases hb : resp.SerializeToArray resp.ByteSizeLong with
      | none => simp [workerLoopOn, h1, h2, h3, hd, hb]
      | some buffer =>
        cases hx : ep.sendResponse Header.NO_HEADER buffer resp.ByteSizeLong with
        | error e => simp [workerLoopOn, h1, h2, h3, hd, hb, hx]
        | ok u => simp [workerLoopOn, h1, h2, h3, hd, hb, hx, prependEvents]

/-- A loop that is back in `recv` after `pre` goes on with the rest of the outcomes. -/
theorem workerLoopOn_append (gc : Message → MessageResponseCode) (srv : ServerHooks)
    (ep : WorkerEndpoint) (async : Bool) (pre rest : List (Except Error Received))
    (h : (workerLoopOn gc srv ep async pre).2 = LoopExit.recvPending) :
    workerLoopOn gc srv ep async (pre ++ rest)
      = prependEvents (workerLoopOn gc srv ep async pre).1
          (workerLoopOn gc srv ep async rest) := by
  induction pre with
  | nil => simp [workerLoopOn, prependEvents]
  | cons x pre ih =>
    cases x with
    | error e => simp [workerLoopOn] at h
    | ok r =>
      rw [List.cons_append, workerLoopOn_cons gc srv ep async r (pre ++ rest)]
      rw [workerLoopOn_cons gc srv ep async r pre] at h ⊢
      by_cases hp : (workerLoopOn gc srv ep async [.ok r]).2 = LoopExit.recvPending
      · rw [if_pos hp] at h
        rw [if_pos hp, if_pos hp]
        rw [prependEvents_snd] at h
        rw [ih h, prependEvents_prependEvents, prependEvents_fst]
      · rw [if_neg hp] at h
        exact absurd h hp

theorem workerLoopOn_other (gc : Message → MessageResponseCode) (srv : ServerHooks)
    (ep : WorkerEndpoint) (async : Bool) (r : Received) (rest : List (Except Error Received))
    (h : handledStatus (gc r.body) = false) :
    workerLoopOn gc srv ep async (.ok r :: rest)
      = ([WorkerEvent.recv r.body],
          LoopExit.raised (Error.runtime_error What.unsuccessfulMessage)) := by
  have h1 : gc r.body ≠ MessageResponseCode.TERM := by
    intro hc; rw [hc] at h; simp [handledStatus] at h
  have h2 : gc r.body ≠ MessageResponseCode.TIMEOUT := by
    intro hc; rw [hc] at h; simp [handledStatus] at h
  have h3 : gc r.body ≠ MessageResponseCode.SUCCESS := by
    intro hc; rw [hc] at h; simp [handledStatus] at h
  rw [workerLoopOn, if_neg h1, if_neg h2, if_pos h3]

/-- On an endpoint whose receives return and whose reply sends return, the loop is
`workerLoop`. -/
theorem workerLoopOn_eq_workerLoop (gc : Message → MessageResponseCode) (srv : ServerHooks)
    (ep : WorkerEndpoint) (async : Bool) (inputs : List Received)
    (hR : ReplySendsSucceed ep srv async inputs) :
    workerLoopOn gc srv ep async (inputs.map Except.ok) = workerLoop gc srv async inputs := by
  induction inputs with
  | nil => rfl
  | cons r rest ih =>
    have hrest : ReplySendsSucceed ep srv async rest :=
      fun ha x hx => hR ha x (List.mem_cons_of_mem _ hx)
    have ih1 := ih hrest
    rw [List.map_cons, workerLoopOn, workerLoop, ih1]
    by_cases h1 : gc r.body = MessageResponseCode.TERM
    · simp [h1]
    by_cases h2 : gc r.body = MessageResponseCode.TIMEOUT
    · simp [h1, h2]
    by_cases h3 : gc r.body = MessageResponseCode.SUCCESS
    swap
    · simp [h1, h2, h3]
    cases async with
    | true => simp [h1, h2, h3]
    | false =>
      cases hd : srv.doSyncRecv r.body with
      | error e => simp [h1, h2, h3, hd]
      | ok resp =>
        cases hb : resp.SerializeToArray resp.ByteSizeLong with
        | none => simp [h1, h2, h3, hd, hb]
        | some buffer =>
          have hx := hR rfl r (List.mem_cons_self _ _) resp buffer hd hb
          simp [h1, h2, h3, hd, hb, hx]

theorem replySendsSucceed_of_subset (ep : WorkerEndpoint) (srv : ServerHooks) (async : Bool)
    (xs ys : List Received) (h : ∀ r ∈ xs, r ∈ ys) (hR : ReplySendsSucceed ep srv async ys) :
    ReplySendsSucceed ep srv async xs :=
  fun ha r hr => hR ha r (h r hr)

theorem replySendsSucceed_async (ep : WorkerEndpoint) (srv : ServerHooks)
    (inputs : List Received) : ReplySendsSucceed ep srv true inputs := by
  intro h
  cases h

/-- The send of `MessageEndpoint::send` returns on a socket that sends every buffer
whole. -/
theorem send_deliveringSocket (bytes msg : List Nat) (size : Nat) (more : Bool) :
    MessageEndpoint.send (deliveringSocket bytes) msg size more = .ok () := by
  cases more <;> simp [MessageEndpoint.send, deliveringSocket]

/-- Every reply send returns on an endpoint whose socket sends every buffer whole. -/
theorem replySendsSucceed_delivering (bytes : List Nat) (srv : ServerHooks) (async : Bool)
    (inputs : List Received) :
    ReplySendsSucceed (endpointOn (deliveringSocket bytes)) srv async inputs := by
  intro _ r _ resp buffer _ _
  exact send_deliveringSocket bytes buffer resp.ByteSizeLong false

/-! ## The worker dispatch loop: claims -/

/-- C1, as stated, fails: with every status handled and hooks that do not fail, the sync
hook is not called for a `SUCCESS` message that precedes the first `TERM` when the send
of an earlier reply fails. On an endpoint whose socket sends one byte less than asked,
`MessageEndpoint::send` throws "Error sending message" on the first reply, nothing in the
loop catches it, and two `SUCCESS` messages then `TERM` give one hook call, not two. -/
theorem dispatch_stops_on_failed_send :
    (∀ r ∈ [(⟨Message.copied [1], none⟩ : Received), ⟨Message.copied [2], none⟩,
          ⟨Message.empty, none⟩], handledStatus (exampleResponseCode r.body) = true)
      ∧ (∀ m, (∃ u, exampleHooks.doAsyncRecv m = .ok u)
          ∧ (∃ resp, exampleHooks.doSyncRecv m = .ok resp))
      ∧ workerLoopOn exampleResponseCode exampleHooks (endpointOn shortSendSocket) false
          [.ok ⟨Message.copied [1], none⟩, .ok ⟨Message.copied [2], none⟩,
           .ok ⟨Message.empty, none⟩]
        = ([WorkerEvent.recv (Message.copied [1]), WorkerEvent.doSyncRecv (Message.copied [1]),
            WorkerEvent.sendResponse Header.NO_HEADER [1] 1],
            LoopExit.raised (Error.runtime_error What.errorSendingMessage))
      ∧ hookCalls false
          (workerLoopOn exampleResponseCode exampleHooks (endpointOn shortSendSocket) false
            [.ok ⟨Message.copied [1], none⟩, .ok ⟨Message.copied [2], none⟩,
             .ok ⟨Message.empty, none⟩]).1
        = [Message.copied [1]]
      ∧ expectedHookCalls exampleResponseCode
          [⟨Message.copied [1], none⟩, ⟨Message.copied [2], none⟩, ⟨Message.empty, none⟩]
        = [Message.copied [1], Message.copied [2]] := by
  refine ⟨by decide, fun m => ⟨⟨(), rfl⟩, ⟨_, rfl⟩⟩, by decide, by decide, by decide⟩

/-- C1, amended: for every finite sequence of received messages whose statuses are
SUCCESS, TIMEOUT or TERM, when the hook of the mode does not fail and (in sync mode) the
serialisation and the send of each reply succeed, the hook is invoked exactly once for
each SUCCESS message that precedes the first TERM, in arrival order and with that message
as argument, and for nothing else; the loop is left on the first TERM and not before. A
TIMEOUT message changes neither the hook calls nor the way the loop is left, and M
SUCCESS messages followed by TERM give exactly M hook calls. -/
theorem dispatch_hook_calls (gc : Message → MessageResponseCode) (srv : ServerHooks)
    (ep : WorkerEndpoint) (async : Bool) (inputs : List Received)
    (hS : ∀ r ∈ inputs, handledStatus (gc r.body) = true)
    (hH : HooksSucceed srv async inputs)
    (hR : ReplySendsSucceed ep srv async inputs) :
    hookCalls async (workerLoopOn gc srv ep async (inputs.map Except.ok)).1
        = expectedHookCalls gc inputs
      ∧ (workerLoopOn gc srv ep async (inputs.map Except.ok)).2 = expectedExit gc inputs
      ∧ (∀ pre t post, inputs = pre ++ t :: post →
          gc t.body = MessageResponseCode.TIMEOUT →
          hookCalls async (workerLoopOn gc srv ep async (inputs.map Except.ok)).1
              = hookCalls async (workerLoopOn gc srv ep async ((pre ++ post).map Except.ok)).1
            ∧ (workerLoopOn gc srv ep async (inputs.map Except.ok)).2
              = (workerLoopOn gc srv ep async ((pre ++ post).map Except.ok)).2)
      ∧ (∀ succs t, inputs = succs ++ [t] →
          (∀ r ∈ succs, gc r.body = MessageResponseCode.SUCCESS) →
          gc t.body = MessageResponseCode.TERM →
          hookCalls async (workerLoopOn gc srv ep async (inputs.map Except.ok)).1
              = succs.map Received.body
            ∧ (hookCalls async
                (workerLoopOn gc srv ep async (inputs.map Except.ok)).1).length = succs.length
            ∧ (workerLoopOn gc srv ep async (inputs.map Except.ok)).2 = LoopExit.term) := by
  rw [workerLoopOn_eq_workerLoop gc srv ep async inputs hR]
  obtain ⟨h1, h2⟩ := workerLoop_of_hooksSucceed gc srv async inputs hS hH
  refine ⟨h1, h2, ?_, ?_⟩
  · intro pre t post hi ht
    subst hi
    have hR2 : ReplySendsSucceed ep srv async (pre ++ post) :=
      replySendsSucceed_of_subset ep srv async _ _
        (fun r hr => by
          rcases List.mem_append.mp hr with hx | hx
          · exact List.mem_append_left _ hx
          · exact List.mem_append_right _ (List.mem_cons_of_mem _ hx)) hR
    rw [workerLoopOn_eq_workerLoop gc srv ep async (pre ++ post) hR2]
    obtain ⟨a, _, c⟩ := workerLoop_skip_timeout gc srv async pre post t ht
    exact ⟨a, c⟩
  · intro succs t hi hs ht
    subst hi
    have h3 := expectedHookCalls_successes_then_term gc succs t hs ht
    refine ⟨h1.trans h3, ?_, ?_⟩
    · rw [h1, h3, List.length_map]
    · rw [h2]
      unfold expectedExit
      simp [ht]

/-- Witness of `dispatch_hook_calls`: a request, a timeout, a request, the shutdown
message and a late request, in sync mode on an endpoint whose socket sends every reply
whole: the hook sees the two requests. -/
theorem dispatch_hook_calls_witness :
    hookCalls false
        (workerLoopOn exampleResponseCode exampleHooks (endpointOn (deliveringSocket []))
          false (exampleInputs.map Except.ok)).1
        = [Message.copied [80, 73, 78, 71], Message.copied [2]]
      ∧ (workerLoopOn exampleResponseCode exampleHooks (endpointOn (deliveringSocket []))
          false (exampleInputs.map Except.ok)).2 = LoopExit.term :=
  have h := dispatch_hook_calls exampleResponseCode exampleHooks
    (endpointOn (deliveringSocket [])) false exampleInputs
    (by decide) (exampleHooks_succeed false exampleInputs)
    (replySendsSucceed_delivering [] exampleHooks false exampleInputs)
  ⟨h.1.trans (by decide), h.2.1.trans (by decide)⟩

/-- C2: for every SUCCESS message a sync-mode worker receives, when the serialisation of
the reply `doSyncRecv` returned succeeds, the worker sends exactly one response before it
receives the next message, with header NO_HEADER, the serialised reply as payload and
the reply's `ByteSizeLong` as length; an async-mode worker never sends a response. -/
theorem sync_reply_sent_once (gc : Message → MessageResponseCode) (srv : ServerHooks)
    (pre post asyncInputs : List Received) (r : Received) (resp : ProtoMessage)
    (buffer : List Nat)
    (hpre : (workerLoop gc srv false pre).2 = LoopExit.recvPending)
    (hs : gc r.body = MessageResponseCode.SUCCESS)
    (hd : srv.doSyncRecv r.body = .ok resp)
    (hb : resp.SerializeToArray resp.ByteSizeLong = some buffer) :
    workerLoop gc srv false (pre ++ r :: post)
        = prependEvents
            ((workerLoop gc srv false pre).1
              ++ [WorkerEvent.recv r.body, WorkerEvent.doSyncRecv r.body,
                  WorkerEvent.sendResponse Header.NO_HEADER buffer resp.ByteSizeLong]
              ++ requestLatchEvents r.requestLatch)
            (workerLoop gc srv false post)
      ∧ responsesSent (requestLatchEvents r.requestLatch) = []
      ∧ (workerLoop gc srv false post).1.head?
          = post.head?.map (fun x => WorkerEvent.recv x.body)
      ∧ responsesSent (workerLoop gc srv true asyncInputs).1 = [] := by
  refine ⟨?_, responsesSent_requestLatchEvents _, workerLoop_head gc srv false post,
    responsesSent_async gc srv asyncInputs⟩
  rw [workerLoop_append gc srv false pre (r :: post) hpre,
    workerLoop_sync_ok gc srv r post resp buffer hs hd hb, prependEvents_prependEvents]
  simp [List.append_assoc]

/-- Witness of `sync_reply_sent_once`: the sync hook answers "PONG" to "PING"; the
worker sends exactly that reply, after a timeout and before the next receive. -/
theorem sync_reply_sent_once_witness :
    workerLoop exampleResponseCode exampleHooks false
        ([⟨Message.sized 2 [0, 0], none⟩] ++ ⟨Message.copied [80, 73, 78, 71], none⟩
          :: [⟨Message.empty, none⟩])
      = ([WorkerEvent.recv (Message.sized 2 [0, 0]),
          WorkerEvent.recv (Message.copied [80, 73, 78, 71]),
          WorkerEvent.doSyncRecv (Message.copied [80, 73, 78, 71]),
          WorkerEvent.sendResponse Header.NO_HEADER [80, 79, 78, 71] 4,
          WorkerEvent.recv Message.empty], LoopExit.term) :=
  (sync_reply_sent_once exampleResponseCode exampleHooks [⟨Message.sized 2 [0, 0], none⟩]
    [⟨Message.empty, none⟩] [] ⟨Message.copied [80, 73, 78, 71], none⟩
    (exampleReply [80, 79, 78, 71]) [80, 79, 78, 71] (by decide) (by decide) rfl
    (by decide)).1.trans (by decide)

/-- C5, as stated, fails in its converse: with every status handled, hooks that do not
fail and a reply that serialises, the sync worker raises when the send of the reply
fails. On an endpoint whose socket sends one byte less than asked, one `SUCCESS` message
ends the loop with the runtime error "Error sending message" of `MessageEndpoint::send`. -/
theorem worker_raises_on_failed_send :
    (∀ x ∈ [(⟨Message.copied [5, 6], none⟩ : Received)],
        handledStatus (exampleResponseCode x.body) = true)
      ∧ HooksSucceed exampleHooks false [⟨Message.copied [5, 6], none⟩]
      ∧ workerLoopOn exampleResponseCode exampleHooks (endpointOn shortSendSocket) false
          [.ok ⟨Message.copied [5, 6], none⟩]
        = ([WorkerEvent.recv (Message.copied [5, 6]),
            WorkerEvent.doSyncRecv (Message.copied [5, 6]),
            WorkerEvent.sendResponse Header.NO_HEADER [5, 6] 2],
            LoopExit.raised (Error.runtime_error What.errorSendingMessage)) := by
  refine ⟨by decide, exampleHooks_succeed false _, by decide⟩

/-- C5, amended: a message the worker receives (the loop is back in `recv` after the
outcomes before it, so no TERM came earlier) whose status is none of SUCCESS, TIMEOUT and
TERM makes the worker raise a runtime error right after the receive: no hook call, no
reply and no further receive follow. Conversely, when every receive returns a message
whose status is one of the three, and the hooks, the reply serialisation and the reply
send do not fail, the worker never raises. -/
theorem unhandled_status_raises (gc : Message → MessageResponseCode) (srv : ServerHooks)
    (ep : WorkerEndpoint) (async : Bool) (pre post : List (Except Error Received))
    (inputs : List Received) (r : Received) :
    ((workerLoopOn gc srv ep async pre).2 = LoopExit.recvPending →
        handledStatus (gc r.body) = false →
        workerLoopOn gc srv ep async (pre ++ .ok r :: post)
          = ((workerLoopOn gc srv ep async pre).1 ++ [WorkerEvent.recv r.body],
              LoopExit.raised (Error.runtime_error What.unsuccessfulMessage)))
      ∧ ((∀ x ∈ inputs, handledStatus (gc x.body) = true) →
          HooksSucceed srv async inputs →
          ReplySendsSucceed ep srv async inputs →
          ∀ e, (workerLoopOn gc srv ep async (inputs.map Except.ok)).2
            ≠ LoopExit.raised e) := by
  constructor
  · intro hpre hr
    rw [workerLoopOn_append gc srv ep async pre (.ok r :: post) hpre,
      workerLoopOn_other gc srv ep async r post hr]
    rfl
  · intro hS hH hR e
    rw [workerLoopOn_eq_workerLoop gc srv ep async inputs hR,
      (workerLoop_of_hooksSucceed gc srv async inputs hS hH).2]
    unfold expectedExit
    split <;> simp

/-- Witness of `unhandled_status_raises`: on an endpoint whose socket sends every reply
whole, a message of unknown status stops the sync worker after one request; the example
sequence, whose statuses are all handled, does not make it raise. -/
theorem unhandled_status_raises_witness :
    workerLoopOn exampleResponseCode exampleHooks (endpointOn (deliveringSocket [])) false
        ([.ok ⟨Message.copied [1], none⟩] ++ .ok ⟨Message.copied [7], none⟩
          :: [.ok ⟨Message.copied [2], none⟩])
      = ([WorkerEvent.recv (Message.copied [1]), WorkerEvent.doSyncRecv (Message.copied [1]),
          WorkerEvent.sendResponse Header.NO_HEADER [1] 1,
          WorkerEvent.recv (Message.copied [7])],
          LoopExit.raised (Error.runtime_error What.unsuccessfulMessage))
      ∧ (workerLoopOn exampleResponseCode exampleHooks (endpointOn (deliveringSocket []))
          false (exampleInputs.map Except.ok)).2
          ≠ LoopExit.raised (Error.runtime_error What.unsuccessfulMessage) :=
  have h := unhandled_status_raises exampleResponseCode exampleHooks
    (endpointOn (deliveringSocket [])) false
    [.ok ⟨Message.copied [1], none⟩] [.ok ⟨Message.copied [2], none⟩] exampleInputs
    ⟨Message.copied [7], none⟩
  ⟨(h.1 (by decide) (by decide)).trans (by decide),
    h.2 (by decide) (exampleHooks_succeed false exampleInputs)
      (replySendsSucceed_delivering [] exampleHooks false exampleInputs) _⟩

/-! ## `MessageEndpointServer::stop` -/

theorem asyncShutdownRound_eq (s : MessageEndpointServer) :
    asyncShutdownRound s
      = some ({ s with latchesCreated := s.latchesCreated + 1, shutdownLatch := none },
          expectedRound true s.asyncPort s.shutdownPayload s.latchesCreated) := rfl

theorem syncShutdownRound_eq (s : MessageEndpointServer) :
    syncShutdownRound s
      = some ({ s with latchesCreated := s.latchesCreated + 1, shutdownLatch := none },
          expectedRound false s.syncPort s.shutdownPayload s.latchesCreated) := rfl

/-- The state after `k` shutdown rounds. -/
theorem repeatRound_async (k : Nat) (s : MessageEndpointServer) :
    repeatRound asyncShutdownRound k s
      = some ({ s with latchesCreated := s.latchesCreated + k,
                       shutdownLatch := if k = 0 then s.shutdownLatch else none },
          expectedRounds true s.asyncPort s.shutdownPayload s.latchesCreated k) := by
  induction k generalizing s with
  | zero => rfl
  | succ k ih =>
    rw [repeatRound, asyncShutdownRound_eq]
    simp only [ih, expectedRounds]
    cases k <;> simp [Nat.add_assoc, Nat.add_comm 1]

theorem repeatRound_sync (k : Nat) (s : MessageEndpointServer) :
    repeatRound syncShutdownRound k s
      = some ({ s with latchesCreated := s.latchesCreated + k,
                       shutdownLatch := if k = 0 then s.shutdownLatch else none },
          expectedRounds false s.syncPort s.shutdownPayload s.latchesCreated k) := by
  induction k generalizing s with
  | zero => rfl
  | succ k ih =>
    rw [repeatRound, syncShutdownRound_eq]
    simp only [ih, expectedRounds]
    cases k <;> simp [Nat.add_assoc, Nat.add_comm 1]

/-- What `stop` does on a started server, and the state it leaves. -/
theorem stop_started (s : MessageEndpointServer) (hs : s.started = true) :
    s.stop
      = some ({ s with
            latchesCreated := s.latchesCreated + s.nThreads.toNat + s.nThreads.toNat,
            shutdownLatch := if s.nThreads.toNat = 0 then s.shutdownLatch else none,
            asyncHandler := s.asyncHandler.join.1,
            syncHandler := s.syncHandler.join.1,
            started := false },
          expectedRounds true s.asyncPort s.shutdownPayload s.latchesCreated s.nThreads.toNat
            ++ expectedRounds false s.syncPort s.shutdownPayload (s.latchesCreated + s.nThreads.toNat)
                s.nThreads.toNat
            ++ s.asyncHandler.join.2 ++ s.syncHandler.join.2
            ++ [ServerEvent.storeStarted false]) := by
  unfold MessageEndpointServer.stop
  rw [hs]
  simp only [Bool.not_true, Bool.false_eq_true, if_false, repeatRound_async, repeatRound_sync]
  congr 2
  by_cases h0 : s.nThreads.toNat = 0 <;> simp [h0]

theorem stop_not_started (s : MessageEndpointServer) (hs : s.started = false) :
    s.stop = some (s, []) := by
  unfold MessageEndpointServer.stop
  rw [hs]
  rfl

/-- The call `stop` always returns, and leaves the server not started. -/
theorem stop_total (s : MessageEndpointServer) :
    ∃ s1 es, s.stop = some (s1, es) ∧ s1.started = false := by
  cases hs : s.started with
  | false => exact ⟨s, [], stop_not_started s hs, hs⟩
  | true => exact ⟨_, _, stop_started s hs, rfl⟩

theorem shutdownMessages_append (xs ys : List ServerEvent) :
    shutdownMessages (xs ++ ys) = shutdownMessages xs ++ shutdownMessages ys := by
  induction xs with
  | nil => rfl
  | cons e xs ih => cases e <;> simp [shutdownMessages, ih]

theorem shutdownMessages_expectedRounds (async : Bool) (port : Int) (payload : List Nat)
    (latchId count : Nat) :
    shutdownMessages (expectedRounds async port payload latchId count)
      = List.replicate count async := by
  induction count generalizing latchId with
  | zero => rfl
  | succ k ih =>
    rw [expectedRounds, shutdownMessages_append, ih, List.replicate_succ]
    cases async <;> rfl

theorem shutdownMessages_joinWorkers (async : Bool) (index : Nat) (ts : List ThreadHandle) :
    shutdownMessages (joinWorkers async index ts).2 = [] := by
  induction ts generalizing index with
  | nil => rfl
  | cons t ts ih =>
    unfold joinWorkers
    by_cases ht : t = ThreadHandle.running <;> simp [ht, shutdownMessages, ih]

theorem shutdownMessages_join (h : MessageEndpointServerHandler) :
    shutdownMessages h.join.2 = [] := by
  unfold MessageEndpointServerHandler.join
  simp only [shutdownMessages_append, shutdownMessages_joinWorkers]
  cases h.syncFanIn <;> cases h.asyncFanIn <;>
    by_cases hr : h.receiverThread = ThreadHandle.running <;> simp [hr, shutdownMessages]

/-- C3: a `stop` on a server that is not started is a no-op: no event (no shutdown
message, no latch installed, no handler joined) and the same server state. After `start`
followed by `stop` the started flag is false and one more `stop` is a no-op; two calls of
`stop` in a row do what one does. -/
theorem stop_idempotent (s : MessageEndpointServer) (timeoutMs : Int) :
    (s.started = false → s.stop = some (s, []))
      ∧ (∃ s2 es, (s.start timeoutMs).1.stop = some (s2, es) ∧ s2.started = false
          ∧ s2.stop = some (s2, []))
      ∧ stopTwice s = s.stop := by
  refine ⟨stop_not_started s, ?_, ?_⟩
  · obtain ⟨s2, es, h1, h2⟩ := stop_total (s.start timeoutMs).1
    exact ⟨s2, es, h1, h2, stop_not_started s2 h2⟩
  · obtain ⟨s1, es, h1, h2⟩ := stop_total s
    unfold stopTwice
    rw [h1]
    simp only [stop_not_started s1 h2, List.append_nil]

/-- Witness of `stop_idempotent`: the example server, never started, is left as it is. -/
theorem stop_idempotent_witness :
    exampleServer.stop = some (exampleServer, [])
      ∧ stopTwice (exampleServer.start 1000).1 = (exampleServer.start 1000).1.stop :=
  ⟨(stop_idempotent exampleServer 1000).1 rfl,
    (stop_idempotent (exampleServer.start 1000).1 1000).2.2⟩

theorem filter_range_cons (t : ThreadHandle) (ts : List ThreadHandle) :
    (List.range (t :: ts).length).filter (fun i => (t :: ts)[i]? == some ThreadHandle.running)
      = (if t = ThreadHandle.running then [0] else [])
        ++ ((List.range ts.length).filter
            (fun i => ts[i]? == some ThreadHandle.running)).map Nat.succ := by
  rw [List.length_cons, List.range_succ_eq_map, List.filter_cons, List.filter_map]
  have e : ((fun i => (t :: ts)[i]? == some ThreadHandle.running) ∘ Nat.succ)
      = (fun i => ts[i]? == some ThreadHandle.running) := by
    funext i
    simp
  rw [e]
  by_cases ht : t = ThreadHandle.running <;> simp [ht]

theorem joinWorkers_events (async : Bool) (index : Nat) (ts : List ThreadHandle) :
    (joinWorkers async index ts).2
      = ((List.range ts.length).filter
          (fun i => ts[i]? == some ThreadHandle.running)).map
        (fun i => ServerEvent.workerJoin async (index + i)) := by
  induction ts generalizing index with
  | nil => rfl
  | cons t ts ih =>
    rw [joinWorkers, filter_range_cons, List.map_append, List.map_map]
    have e : ((fun i => ServerEvent.workerJoin async (index + i)) ∘ Nat.succ)
        = (fun i => ServerEvent.workerJoin async (index + 1 + i)) := by
      funext i
      simp only [Function.comp, Nat.succ_eq_add_one]
      congr 1
      omega
    rw [e]
    by_cases ht : t = ThreadHandle.running <;> simp [ht, ih]

theorem joinWorkers_threads (async : Bool) (index : Nat) (ts : List ThreadHandle) :
    ∀ t ∈ (joinWorkers async index ts).1, t ≠ ThreadHandle.running := by
  induction ts generalizing index with
  | nil => intro t ht; cases ht
  | cons t ts ih =>
    rw [joinWorkers]
    by_cases ht : t = ThreadHandle.running
    · simp only [ht, if_true, List.mem_cons]
      rintro u (hu | hu)
      · rw [hu]; decide
      · exact ih _ u hu
    · simp only [ht, if_false, List.mem_cons]
      rintro u (hu | hu)
      · rw [hu]; exact ht
      · exact ih _ u hu

theorem join_events (h : MessageEndpointServerHandler) :
    h.join.2 = expectedJoinEvents h := by
  unfold MessageEndpointServerHandler.join expectedJoinEvents
  simp only [joinWorkers_events, Nat.zero_add]
  by_cases hr : h.receiverThread = ThreadHandle.running <;> simp [hr]

theorem join_allJoined (h : MessageEndpointServerHandler) :
    h.join.1.allJoined = true := by
  unfold MessageEndpointServerHandler.join MessageEndpointServerHandler.allJoined
  simp only [Bool.and_eq_true, List.all_eq_true, bne_iff_ne, ne_eq]
  refine ⟨fun t ht => joinWorkers_threads _ _ _ t ht, ?_⟩
  by_cases hr : h.receiverThread = ThreadHandle.running
  · simp [hr]
  · simp [hr]

theorem joinWorkers_state (async : Bool) (index : Nat) (ts : List ThreadHandle) :
    (joinWorkers async index ts).1 = ts.map ThreadHandle.afterJoin := by
  induction ts generalizing index with
  | nil => rfl
  | cons t ts ih =>
    rw [joinWorkers]
    by_cases ht : t = ThreadHandle.running <;> simp [ht, ih, ThreadHandle.afterJoin]

theorem join_state (h : MessageEndpointServerHandler) :
    h.join.1 = expectedJoined h := by
  unfold MessageEndpointServerHandler.join expectedJoined
  simp only [joinWorkers_state]
  by_cases hr : h.receiverThread = ThreadHandle.running <;> simp [hr, ThreadHandle.afterJoin]

theorem expectedJoined_allJoined (h : MessageEndpointServerHandler) :
    (expectedJoined h).allJoined = true := by
  rw [← join_state]
  exact join_allJoined h

/-- C4: a `stop` on a started server with thread count n performs exactly n async
shutdown rounds, then exactly n sync shutdown rounds; each round installs a fresh latch
of 2 parties, sends one SHUTDOWN_HEADER message to the port of the mode (async with
`send`, sync with `sendAwaitResponse`), waits on the installed latch and sets it to null.
Only then it joins the async handler (the call, the stop of its fan-in proxies, the join
of each joinable worker thread and of the receiver thread), then in the same way the sync
handler, and sets started to false; on return no thread of either handler is joinable
and the shutdown latch is null (as it was before the call, when n = 0). -/
theorem stop_rounds (s : MessageEndpointServer) (n : Nat) (hs : s.started = true)
    (hn : s.nThreads = n) :
    ∃ s1 es, s.stop = some (s1, es)
      ∧ es = expectedRounds true s.asyncPort s.shutdownPayload s.latchesCreated n
            ++ expectedRounds false s.syncPort s.shutdownPayload (s.latchesCreated + n) n
            ++ expectedJoinEvents s.asyncHandler ++ expectedJoinEvents s.syncHandler
            ++ [ServerEvent.storeStarted false]
      ∧ shutdownMessages es = List.replicate n true ++ List.replicate n false
      ∧ s1.started = false
      ∧ s1.asyncHandler = expectedJoined s.asyncHandler
      ∧ s1.syncHandler = expectedJoined s.syncHandler
      ∧ s1.asyncHandler.allJoined = true
      ∧ s1.syncHandler.allJoined = true
      ∧ (s.shutdownLatch = none ∨ 0 < n → s1.shutdownLatch = none) := by
  have hn2 : s.nThreads.toNat = n := by rw [hn]; exact Int.toNat_natCast n
  refine ⟨_, _, stop_started s hs, ?_, ?_, rfl, join_state _, join_state _,
    join_allJoined _, join_allJoined _, ?_⟩
  · rw [hn2, join_events, join_events]
  · simp only [shutdownMessages_append, shutdownMessages_expectedRounds,
      shutdownMessages_join, hn2, List.append_nil]
    simp [shutdownMessages]
  · intro h
    simp only [hn2]
    rcases h with h | h
    · by_cases h0 : n = 0 <;> simp [h0, h]
    · have h0 : n ≠ 0 := by omega
      simp [h0]

/-- Witness of `stop_rounds`: the example server, started with two threads per mode,
runs two async and then two sync shutdown rounds, then joins the async handler and the
sync handler, each with its fan-in proxy, its two workers and its receiver, and stores
started = false. -/
theorem stop_rounds_witness :
    ∃ s1 es, (exampleServer.start 1000).1.stop = some (s1, es)
      ∧ es = expectedRound true 8003 [0] 0 ++ expectedRound true 8003 [0] 1
          ++ expectedRound false 8004 [0] 2 ++ expectedRound false 8004 [0] 3
          ++ [ServerEvent.handlerJoin true, ServerEvent.fanInStop true,
              ServerEvent.workerJoin true 0, ServerEvent.workerJoin true 1,
              ServerEvent.receiverJoin true,
              ServerEvent.handlerJoin false, ServerEvent.fanInStop false,
              ServerEvent.workerJoin false 0, ServerEvent.workerJoin false 1,
              ServerEvent.receiverJoin false,
              ServerEvent.storeStarted false]
      ∧ shutdownMessages es = [true, true, false, false]
      ∧ s1.started = false ∧ s1.shutdownLatch = none
      ∧ s1.asyncHandler.workerThreads = [ThreadHandle.joined, ThreadHandle.joined]
      ∧ s1.asyncHandler.receiverThread = ThreadHandle.joined
      ∧ s1.syncHandler.workerThreads = [ThreadHandle.joined, ThreadHandle.joined]
      ∧ s1.syncHandler.receiverThread = ThreadHandle.joined := by
  obtain ⟨s1, es, h1, h2, h3, h4, h5, h6, _, _, h9⟩ :=
    stop_rounds (exampleServer.start 1000).1 2 rfl rfl
  refine ⟨s1, es, h1, ?_, h3, h4, h9 (Or.inl rfl), ?_, ?_, ?_, ?_⟩
  · rw [h2]; rfl
  · rw [h5]; rfl
  · rw [h5]; rfl
  · rw [h6]; rfl
  · rw [h6]; rfl

/-! ## `MessageEndpointServerHandler::start`: the startup latch -/

/-- The dispatch loop produces loop events only. -/
theorem workerLoop_inLoop (gc : Message → MessageResponseCode) (srv : ServerHooks)
    (async : Bool) (inputs : List Received) :
    ∀ e ∈ (workerLoop gc srv async inputs).1, e.inLoop = true := by
  induction inputs with
  | nil => intro e he; cases he
  | cons r l ih =>
    have hl : ∀ e ∈ requestLatchEvents r.requestLatch, e.inLoop = true := by
      intro e he
      cases hr : r.requestLatch with
      | none => rw [hr] at he; cases he
      | some x =>
        rw [hr] at he
        simp only [requestLatchEvents, List.mem_singleton] at he
        subst he; rfl
    rcases status_cases (gc r.body) with hs | hs | hs | hs
    · cases async with
      | true =>
        cases hd : srv.doAsyncRecv r.body with
        | error e =>
          rw [workerLoop_async_error gc srv r _ e hs hd]
          intro x hx
          simp only [List.mem_cons, List.mem_singleton, List.not_mem_nil, or_false] at hx
          rcases hx with hx | hx <;> subst hx <;> rfl
        | ok u =>
          rw [workerLoop_async_ok gc srv r _ u hs hd, prependEvents_fst]
          intro x hx
          simp only [List.mem_append, List.mem_cons, List.mem_singleton, List.not_mem_nil,
            or_false] at hx
          rcases hx with ((hx | hx) | hx) | hx
          · subst hx; rfl
          · subst hx; rfl
          · exact hl x hx
          · exact ih x hx
      | false =>
        cases hd : srv.doSyncRecv r.body with
        | error e =>
          rw [workerLoop_sync_error gc srv r _ e hs hd]
          intro x hx
          simp only [List.mem_cons, List.mem_singleton, List.not_mem_nil, or_false] at hx
          rcases hx with hx | hx <;> subst hx <;> rfl
        | ok resp =>
          cases hb : resp.SerializeToArray resp.ByteSizeLong with
          | none =>
            rw [workerLoop_sync_serialise_fail gc srv r _ resp hs hd hb]
            intro x hx
            simp only [List.mem_cons, List.mem_singleton, List.not_mem_nil, or_false] at hx
            rcases hx with hx | hx <;> subst hx <;> rfl
          | some buffer =>
            rw [workerLoop_sync_ok gc srv r _ resp buffer hs hd hb, prependEvents_fst]
            intro x hx
            simp only [List.mem_append, List.mem_cons, List.mem_singleton, List.not_mem_nil,
              or_false] at hx
            rcases hx with ((hx | hx | hx) | hx) | hx
            · subst hx; rfl
            · subst hx; rfl
            · subst hx; rfl
            · exact hl x hx
            · exact ih x hx
    · rw [workerLoop_term gc srv async r _ hs]
      intro x hx
      simp only [List.mem_singleton] at hx
      subst hx; rfl
    · rw [workerLoop_timeout gc srv async r _ hs, prependEvents_fst]
      intro x hx
      simp only [List.mem_append, List.mem_singleton] at hx
      rcases hx with hx | hx
      · subst hx; rfl
      · exact ih x hx
    · rw [workerLoop_other gc srv async r _ hs]
      intro x hx
      simp only [List.mem_singleton] at hx
      subst hx; rfl

theorem count_eq_zero_of_inLoop (es : List WorkerEvent) (x : WorkerEvent)
    (h : ∀ e ∈ es, e.inLoop = true) (hx : x.inLoop = false) : es.count x = 0 := by
  rw [List.count_eq_zero]
  intro hm
  rw [h x hm] at hx
  cases hx

theorem workerThread_of_term (gc : Message → MessageResponseCode) (srv : ServerHooks)
    (async : Bool) (inputs : List Received) (shutdownLatch : Option Latch)
    (h : (workerLoop gc srv async inputs).2 = LoopExit.term) :
    workerThread gc srv async inputs shutdownLatch
      = ([WorkerEvent.endpointCreated async, WorkerEvent.startupLatchWait]
            ++ (workerLoop gc srv async inputs).1
            ++ [WorkerEvent.endpointReleased, WorkerEvent.onWorkerStop]
            ++ shutdownLatchEvents shutdownLatch, ThreadExit.finished) := by
  unfold workerThread
  simp only [h]

theorem mem_shutdownLatchEvents (o : Option Latch) (e : WorkerEvent) :
    e ∈ shutdownLatchEvents o ↔ ∃ l, o = some l ∧ e = WorkerEvent.shutdownLatchWait l := by
  cases o <;> simp [shutdownLatchEvents]

/-- C12: when the dispatch loop of a worker exits on a TERM message, the worker calls
`onWorkerStop` exactly once, after its receive endpoint has gone out of scope, and only
then reads the shutdown latch: it waits on that latch if and only if one is installed at
that moment, and ends without waiting (its last act is `onWorkerStop`) when none is. -/
theorem worker_teardown_on_term (gc : Message → MessageResponseCode) (srv : ServerHooks)
    (async : Bool) (inputs : List Received) (shutdownLatch : Option Latch)
    (h : (workerLoop gc srv async inputs).2 = LoopExit.term) :
    workerThread gc srv async inputs shutdownLatch
        = ([WorkerEvent.endpointCreated async, WorkerEvent.startupLatchWait]
              ++ (workerLoop gc srv async inputs).1
              ++ [WorkerEvent.endpointReleased, WorkerEvent.onWorkerStop]
              ++ shutdownLatchEvents shutdownLatch, ThreadExit.finished)
      ∧ (workerThread gc srv async inputs shutdownLatch).1.count WorkerEvent.onWorkerStop = 1
      ∧ (workerThread gc srv async inputs shutdownLatch).1.count WorkerEvent.endpointReleased
          = 1
      ∧ (∀ l, WorkerEvent.shutdownLatchWait l
            ∈ (workerThread gc srv async inputs shutdownLatch).1 ↔ shutdownLatch = some l)
      ∧ (∀ l, (workerThread gc srv async inputs shutdownLatch).1.count
            (WorkerEvent.shutdownLatchWait l) ≤ 1)
      ∧ (shutdownLatch = none →
          (workerThread gc srv async inputs shutdownLatch).1.getLast?
            = some WorkerEvent.onWorkerStop) := by
  have ht := workerThread_of_term gc srv async inputs shutdownLatch h
  have hl := workerLoop_inLoop gc srv async inputs
  have c1 := count_eq_zero_of_inLoop _ WorkerEvent.onWorkerStop hl rfl
  have c2 := count_eq_zero_of_inLoop _ WorkerEvent.endpointReleased hl rfl
  refine ⟨ht, ?_, ?_, ?_, ?_, ?_⟩
  · rw [ht]
    cases shutdownLatch <;> simp [List.count_append, c1, shutdownLatchEvents, List.count_cons]
  · rw [ht]
    cases shutdownLatch <;> simp [List.count_append, c2, shutdownLatchEvents, List.count_cons]
  · intro l
    rw [ht]
    simp only [List.mem_append, mem_shutdownLatchEvents]
    constructor
    · rintro (((hm | hm) | hm) | ⟨l2, h1, h2⟩)
      · simp at hm
      · have := hl _ hm; cases this
      · simp at hm
      · cases h2; exact h1
    · intro hs; exact Or.inr ⟨l, hs, rfl⟩
  · intro l
    have c3 := count_eq_zero_of_inLoop _ (WorkerEvent.shutdownLatchWait l) hl rfl
    have c4 : [WorkerEvent.endpointCreated async, WorkerEvent.startupLatchWait].count
        (WorkerEvent.shutdownLatchWait l) = 0 := List.count_eq_zero.mpr (by simp)
    have c5 : [WorkerEvent.endpointReleased, WorkerEvent.onWorkerStop].count
        (WorkerEvent.shutdownLatchWait l) = 0 := List.count_eq_zero.mpr (by simp)
    have c6 : (shutdownLatchEvents shutdownLatch).count (WorkerEvent.shutdownLatchWait l)
        ≤ 1 := by
      refine le_trans (List.count_le_length _ _) ?_
      cases shutdownLatch <;> simp [shutdownLatchEvents]
    rw [ht]
    simp only [List.count_append, c3, c4, c5]
    omega
  · intro hn
    rw [ht, hn]
    simp only [shutdownLatchEvents, List.append_nil]
    rw [List.getLast?_append]
    rfl

/-- Witness of `worker_teardown_on_term`: the example worker, with the latch of a stop
round installed, ends with the wait on that latch. -/
theorem worker_teardown_on_term_witness :
    (workerThread exampleResponseCode exampleHooks true exampleInputs (some ⟨5, 2⟩)).1
      = [WorkerEvent.endpointCreated true, WorkerEvent.startupLatchWait,
          WorkerEvent.recv (Message.copied [80, 73, 78, 71]),
          WorkerEvent.doAsyncRecv (Message.copied [80, 73, 78, 71]),
          WorkerEvent.recv (Message.sized 2 [0, 0]),
          WorkerEvent.recv (Message.copied [2]),
          WorkerEvent.doAsyncRecv (Message.copied [2]),
          WorkerEvent.requestLatchWait ⟨1, 2⟩,
          WorkerEvent.recv Message.empty,
          WorkerEvent.endpointReleased, WorkerEvent.onWorkerStop,
          WorkerEvent.shutdownLatchWait ⟨5, 2⟩] :=
  (congrArg Prod.fst (worker_teardown_on_term exampleResponseCode exampleHooks true
    exampleInputs (some ⟨5, 2⟩) (by decide)).1).trans (by decide)

theorem requestLatchWaits_append (xs ys : List WorkerEvent) :
    requestLatchWaits (xs ++ ys) = requestLatchWaits xs ++ requestLatchWaits ys := by
  induction xs with
  | nil => rfl
  | cons e xs ih => cases e <;> simp [requestLatchWaits, ih]

theorem requestLatchWaits_requestLatchEvents (o : Option Latch) :
    requestLatchWaits (requestLatchEvents o) = o.toList := by
  cases o <;> rfl

theorem mem_requestLatchEvents (o : Option Latch) (e : WorkerEvent) :
    e ∈ requestLatchEvents o ↔ ∃ l, o = some l ∧ e = WorkerEvent.requestLatchWait l := by
  cases o <;> simp [requestLatchEvents]

theorem expectedRequestLatchWaits_cons (gc : Message → MessageResponseCode) (r : Received)
    (l : List Received) :
    expectedRequestLatchWaits gc (r :: l)
      = if gc r.body = MessageResponseCode.TERM then []
        else if gc r.body = MessageResponseCode.SUCCESS then
          r.requestLatch.toList ++ expectedRequestLatchWaits gc l
        else expectedRequestLatchWaits gc l := by
  unfold expectedRequestLatchWaits
  by_cases h1 : gc r.body = MessageResponseCode.TERM
  · simp [h1, List.takeWhile_cons]
  · by_cases h2 : gc r.body = MessageResponseCode.SUCCESS
    · cases hr : r.requestLatch <;>
        simp [h1, h2, hr, List.takeWhile_cons, List.filter_cons, List.filterMap_cons]
    · simp [h1, h2, List.takeWhile_cons, List.filter_cons]

/-- When every status is handled and nothing raises, the worker waits on the request
latch once for each `SUCCESS` message before the first `TERM` that finds a latch
installed, and at no other time. -/
theorem requestLatchWaits_of_hooksSucceed (gc : Message → MessageResponseCode)
    (srv : ServerHooks) (async : Bool) (inputs : List Received)
    (hS : ∀ r ∈ inputs, handledStatus (gc r.body) = true)
    (hH : HooksSucceed srv async inputs) :
    requestLatchWaits (workerLoop gc srv async inputs).1
      = expectedRequestLatchWaits gc inputs := by
  induction inputs with
  | nil => rfl
  | cons r l ih =>
    have hS2 : ∀ x ∈ l, handledStatus (gc x.body) = true :=
      fun x hx => hS x (List.mem_cons_of_mem _ hx)
    have hH2 : HooksSucceed srv async l := fun x hx => hH x (List.mem_cons_of_mem _ hx)
    have ih1 := ih hS2 hH2
    have hr := hH r (List.mem_cons_self _ _)
    rw [expectedRequestLatchWaits_cons]
    rcases status_cases (gc r.body) with hs | hs | hs | hs
    · have n1 : gc r.body ≠ MessageResponseCode.TERM := by rw [hs]; decide
      rw [if_neg n1, if_pos hs]
      cases async with
      | true =>
        simp only [if_true] at hr
        obtain ⟨u, hu⟩ := hr
        rw [workerLoop_async_ok gc srv r l u hs hu, prependEvents_fst,
          requestLatchWaits_append, requestLatchWaits_append,
          requestLatchWaits_requestLatchEvents, ih1]
        simp [requestLatchWaits]
      | false =>
        simp only [Bool.false_eq_true, if_false] at hr
        obtain ⟨resp, buffer, hd, hb⟩ := hr
        rw [workerLoop_sync_ok gc srv r l resp buffer hs hd hb, prependEvents_fst,
          requestLatchWaits_append, requestLatchWaits_append,
          requestLatchWaits_requestLatchEvents, ih1]
        simp [requestLatchWaits]
    · rw [if_pos hs, workerLoop_term gc srv async r l hs]
      rfl
    · have n1 : gc r.body ≠ MessageResponseCode.TERM := by rw [hs]; decide
      have n2 : gc r.body ≠ MessageResponseCode.SUCCESS := by rw [hs]; decide
      rw [if_neg n1, if_neg n2, workerLoop_timeout gc srv async r l hs, prependEvents_fst,
        requestLatchWaits_append, ih1]
      rfl
    · have := hS r (List.mem_cons_self _ _)
      rw [hs] at this; cases this

/-- C13: after each successfully dispatched message (in sync mode, after the reply has
been sent) the worker waits on the request latch if and only if one is installed at that
moment, and then receives again; after a TIMEOUT or a TERM message it does not wait on
the request latch. `setRequestLatch` installs a fresh latch of 2 parties;
`awaitRequestLatch` waits on the installed latch and then sets the request latch to
null. -/
theorem request_latch_wait (gc : Message → MessageResponseCode) (srv : ServerHooks)
    (async : Bool) (pre post : List Received) (r : Received) (s : MessageEndpointServer)
    (hpre : (workerLoop gc srv async pre).2 = LoopExit.recvPending) :
    (∀ u, async = true → gc r.body = MessageResponseCode.SUCCESS →
        srv.doAsyncRecv r.body = .ok u →
        workerLoop gc srv async (pre ++ r :: post)
          = prependEvents
              ((workerLoop gc srv async pre).1
                ++ [WorkerEvent.recv r.body, WorkerEvent.doAsyncRecv r.body]
                ++ requestLatchEvents r.requestLatch)
              (workerLoop gc srv async post))
      ∧ (∀ resp buffer, async = false → gc r.body = MessageResponseCode.SUCCESS →
          srv.doSyncRecv r.body = .ok resp →
          resp.SerializeToArray resp.ByteSizeLong = some buffer →
          workerLoop gc srv async (pre ++ r :: post)
            = prependEvents
                ((workerLoop gc srv async pre).1
                  ++ [WorkerEvent.recv r.body, WorkerEvent.doSyncRecv r.body,
                      WorkerEvent.sendResponse Header.NO_HEADER buffer resp.ByteSizeLong]
                  ++ requestLatchEvents r.requestLatch)
                (workerLoop gc srv async post))
      ∧ (∀ e, e ∈ requestLatchEvents r.requestLatch
          ↔ ∃ l, r.requestLatch = some l ∧ e = WorkerEvent.requestLatchWait l)
      ∧ (gc r.body = MessageResponseCode.TIMEOUT →
          workerLoop gc srv async (pre ++ r :: post)
            = prependEvents ((workerLoop gc srv async pre).1 ++ [WorkerEvent.recv r.body])
                (workerLoop gc srv async post))
      ∧ (gc r.body = MessageResponseCode.TERM →
          workerLoop gc srv async (pre ++ r :: post)
            = ((workerLoop gc srv async pre).1 ++ [WorkerEvent.recv r.body], LoopExit.term))
      ∧ ((∀ x ∈ pre ++ r :: post, handledStatus (gc x.body) = true) →
          HooksSucceed srv async (pre ++ r :: post) →
          requestLatchWaits (workerLoop gc srv async (pre ++ r :: post)).1
            = expectedRequestLatchWaits gc (pre ++ r :: post))
      ∧ s.setRequestLatch
          = ({ s with latchesCreated := s.latchesCreated + 1,
                      requestLatch := some ⟨s.latchesCreated, 2⟩ },
              [ServerEvent.latchCreate ⟨s.latchesCreated, 2⟩,
               ServerEvent.storeRequestLatch (some ⟨s.latchesCreated, 2⟩)])
      ∧ (∀ l, s.requestLatch = some l →
          s.awaitRequestLatch
            = some ({ s with requestLatch := none },
                [ServerEvent.latchWait l, ServerEvent.storeRequestLatch none]))
      ∧ (∃ s1 es, s.setRequestLatch.1.awaitRequestLatch = some (s1, es)
          ∧ es = [ServerEvent.latchWait ⟨s.latchesCreated, 2⟩,
                  ServerEvent.storeRequestLatch none]
          ∧ s1.requestLatch = none) := by
  have happ := workerLoop_append gc srv async pre (r :: post) hpre
  refine ⟨?_, ?_, mem_requestLatchEvents r.requestLatch, ?_, ?_, ?_, rfl, ?_, ?_⟩
  · intro u ha hs hd
    subst ha
    rw [happ, workerLoop_async_ok gc srv r post u hs hd, prependEvents_prependEvents]
    simp [List.append_assoc]
  · intro resp buffer ha hs hd hb
    subst ha
    rw [happ, workerLoop_sync_ok gc srv r post resp buffer hs hd hb,
      prependEvents_prependEvents]
    simp [List.append_assoc]
  · intro hs
    rw [happ, workerLoop_timeout gc srv async r post hs, prependEvents_prependEvents]
  · intro hs
    rw [happ, workerLoop_term gc srv async r post hs]
    rfl
  · intro hS hH
    exact requestLatchWaits_of_hooksSucceed gc srv async _ hS hH
  · intro l hl
    unfold MessageEndpointServer.awaitRequestLatch
    rw [hl]
  · exact ⟨_, _, rfl, rfl, rfl⟩

/-- Witness of `request_latch_wait`: in sync mode, with a request latch installed after
the second message only, the worker waits once, after the reply to that message. -/
theorem request_latch_wait_witness :
    workerLoop exampleResponseCode exampleHooks false
        ([⟨Message.copied [1], none⟩] ++ ⟨Message.copied [2], some ⟨1, 2⟩⟩
          :: [⟨Message.empty, some ⟨1, 2⟩⟩])
      = ([WorkerEvent.recv (Message.copied [1]), WorkerEvent.doSyncRecv (Message.copied [1]),
          WorkerEvent.sendResponse Header.NO_HEADER [1] 1,
          WorkerEvent.recv (Message.copied [2]), WorkerEvent.doSyncRecv (Message.copied [2]),
          WorkerEvent.sendResponse Header.NO_HEADER [2] 1,
          WorkerEvent.requestLatchWait ⟨1, 2⟩,
          WorkerEvent.recv Message.empty], LoopExit.term) :=
  ((request_latch_wait exampleResponseCode exampleHooks false [⟨Message.copied [1], none⟩]
    [⟨Message.empty, some ⟨1, 2⟩⟩] ⟨Message.copied [2], some ⟨1, 2⟩⟩ exampleServer
    (by decide)).2.1 (exampleReply [2]) [2] rfl (by decide) rfl (by decide)).trans
    (by decide)

/-! ## `MessageEndpointServer::stop` and the worker threads: shutdown rounds -/

end faabric.transport
